import Mathlib

/-!
IOWMIFamily: the WMI controller (`IOWMIController.cpp`).

A shallow embedding of the GUID codec, the `_WDG` descriptor-table parser, the
registry lookup, the control-point accessors and the notification dispatcher of
`IOWMIController`, together with theorems about them.

Conventions of the embedding.

* A byte of memory is a natural number below 256; a memory block or a C string
  is a `List Nat`.  A pointer into a block is the suffix of the block that
  starts at the pointer, so that `p[i]` is `p.getD i 0` and `p += k` is
  `p.drop k`.
* Unsigned 32-bit arithmetic is arithmetic on `Nat` modulo `2 ^ 32`; `int` and
  `char` values are `Int`.
* A `NULL` pointer is `none`.
-/

namespace IOWMI

/-! ## Machine arithmetic -/

/-- Subtraction of `unsigned int` values: the difference modulo `2 ^ 32`. -/
def usub32 (x y : Nat) : Nat := (x % 2 ^ 32 + (2 ^ 32 - y % 2 ^ 32)) % 2 ^ 32

/-- Addition of `unsigned int` values: the sum modulo `2 ^ 32`. -/
def uadd32 (x y : Nat) : Nat := (x + y) % 2 ^ 32

/-- Conversion of a 32-bit pattern to `int` (two's complement). -/
def toInt32 (n : Nat) : Int :=
  if n % 2 ^ 32 < 2 ^ 31 then ((n % 2 ^ 32 : Nat) : Int) else ((n % 2 ^ 32 : Nat) : Int) - 2 ^ 32

/-- The value of a byte read through a `char` lvalue; `char` is signed on the
x86 targets this kernel extension is built for. -/
def charValue (b : Nat) : Int :=
  if b % 256 < 128 then ((b % 256 : Nat) : Int) else ((b % 256 : Nat) : Int) - 256

/-- The C expression `c & 0xFF` for an `int` operand `c` in two's complement:
the low eight bits, a value in `0 .. 255`. -/
def and0xFF (c : Int) : Nat := (c % 256).toNat

/-! ## ASCII -/

/-- The character `'-'`. -/
def dash : Nat := 45

/-- The ASCII codes of a string literal. -/
def lit (s : String) : List Nat := s.toList.map Char.toNat

/-- ASCII hex digits: `0-9`, `a-f`, `A-F`. -/
def isHexDigit (c : Nat) : Prop :=
  (48 ≤ c ∧ c ≤ 57) ∨ (97 ≤ c ∧ c ≤ 102) ∨ (65 ≤ c ∧ c ≤ 70)

instance (c : Nat) : Decidable (isHexDigit c) := by
  unfold isHexDigit; infer_instance

/-- Upper-case hex digits: `0-9`, `A-F`. -/
def isUpperHexDigit (c : Nat) : Prop :=
  (48 ≤ c ∧ c ≤ 57) ∨ (65 ≤ c ∧ c ≤ 70)

instance (c : Nat) : Decidable (isUpperHexDigit c) := by
  unfold isUpperHexDigit; infer_instance

/-- The value of a hex digit (0 for any other character). -/
def hexValue (c : Nat) : Nat :=
  if 48 ≤ c ∧ c ≤ 57 then c - 48
  else if 97 ≤ c ∧ c ≤ 102 then c - 97 + 10
  else if 65 ≤ c ∧ c ≤ 70 then c - 65 + 10
  else 0

/-! ## GUID codec -/

/-- The second half of `wmi_parse_hexbyte`, entered with the value `h` of the
high digit: `h <<= 4`, then the low digit `src[1]` is or-ed in. -/
def hexbyteLow (h : Nat) (src : List Nat) : Int :=
  let h := (h <<< 4) % 2 ^ 32
  -- low part
  let x := src.getD 1 0
  if usub32 x 48 ≤ 57 - 48 then toInt32 (h ||| usub32 x 48)
  else if usub32 x 97 ≤ 102 - 97 then toInt32 (h ||| uadd32 (usub32 x 97) 10)
  else if usub32 x 65 ≤ 70 - 65 then toInt32 (h ||| uadd32 (usub32 x 65) 10)
  else -1

/-- `IOWMIController::wmi_parse_hexbyte(src)`: the two characters `src[0]`,
`src[1]` as a hex number, or `-1`.  The comparisons are made on `unsigned int`,
"for correct wrapping".  The `int` accumulator `h` only ever holds values below
`2 ^ 12`, so it is kept as a natural number. -/
def wmi_parse_hexbyte (src : List Nat) : Int :=
  -- high part
  let x := src.getD 0 0
  if usub32 x 48 ≤ 57 - 48 then hexbyteLow (usub32 x 48) src
  else if usub32 x 97 ≤ 102 - 97 then hexbyteLow (uadd32 (usub32 x 97) 10) src
  else if usub32 x 65 ≤ 70 - 65 then hexbyteLow (uadd32 (usub32 x 65) 10) src
  else -1

/-- `IOWMIController::wmi_swap_bytes(src, dest)`: the contents of the 16-byte
block `dest` after the call, given its contents before. -/
def wmi_swap_bytes (src dest : List Nat) : List Nat :=
  let dest := [0, 1, 2, 3].foldl (fun d i => d.set i (src.getD (3 - i) 0)) dest
  let dest := [0, 1].foldl (fun d i => d.set (4 + i) (src.getD (5 - i) 0)) dest
  let dest := [0, 1].foldl (fun d i => d.set (6 + i) (src.getD (7 - i) 0)) dest
  -- memcpy(dest + 8, src + 8, 8)
  dest.take 8 ++ (src.drop 8).take 8 ++ dest.drop 16

/-- The inner loop of `wmi_parse_guid`: `n` hex bytes are read at `src` (two
characters each) and stored through `dest`.  The result is the advanced source
pointer and the bytes stored so far, or `none` when the function returns
`false`. -/
def parseGroup : Nat → List Nat → List Nat → Option (List Nat × List Nat)
  | 0, src, dest => some (src, dest)
  | n + 1, src, dest =>
    let v := wmi_parse_hexbyte src
    if v < 0 then none
    else parseGroup n (src.drop 2) (dest ++ [(v % 256).toNat])

/-- The outer loop of `wmi_parse_guid` over the group sizes; after each group
the source pointer steps over one character (the hyphen). -/
def parseGroups : List Nat → List Nat → List Nat → Option (List Nat)
  | [], _, dest => some dest
  | n :: sizes, src, dest =>
    match parseGroup n src dest with
    | none => none
    | some (src, dest) => parseGroups sizes (src.drop 1) dest

/-- `IOWMIController::wmi_parse_guid(src, dest)`: `some` of the 16 bytes stored
in `dest` when the function returns `true`, `none` when it returns `false`
(the contents of `dest` are then undefined). -/
def wmi_parse_guid (src : List Nat) : Option (List Nat) :=
  if src.getD 8 0 ≠ dash ∨ src.getD 13 0 ≠ dash ∨
      src.getD 18 0 ≠ dash ∨ src.getD 23 0 ≠ dash then none
  else parseGroups [4, 2, 2, 2, 6] src []

/-- One upper-case hex digit, as `%X` prints it. -/
def hexUpper (d : Nat) : Nat := if d < 10 then 48 + d else 55 + d

/-- The characters `snprintf(out, 3, "%02X", v)` stores before the terminating
NUL, for `v` below 256 (two digits, which is also the value returned). -/
def snprintf_02X (v : Nat) : List Nat := [hexUpper (v / 16 % 16), hexUpper (v % 16)]

/-- `IOWMIController::wmi_data2Str(in, out)`: the bytes stored in `out`, the
terminating NUL included. -/
def wmi_data2Str (inp : List Nat) : List Nat :=
  let byte (i : Nat) : List Nat := snprintf_02X (and0xFF (charValue (inp.getD i 0)))
  let out := [3, 2, 1, 0].foldl (fun out i => out ++ byte i) []
  let out := out ++ [dash]
  let out := out ++ byte 5
  let out := out ++ byte 4
  let out := out ++ [dash]
  let out := out ++ byte 7
  let out := out ++ byte 6
  let out := out ++ [dash]
  let out := out ++ byte 8
  let out := out ++ byte 9
  let out := out ++ [dash]
  let out := [10, 11, 12, 13, 14, 15].foldl (fun out i => out ++ byte i) out
  out ++ [0]

/-- The C string stored at a pointer: the bytes before the first NUL. -/
def cString (buf : List Nat) : List Nat := buf.takeWhile (fun c => c ≠ 0)

/-- The bytes, in firmware order, of the GUID the source gives as its example,
`fa50ff2b-f2e8-45de-83fa-65417f2f49ba`. -/
def exampleGuid : List Nat :=
  [0x2b, 0xff, 0x50, 0xfa, 0xe8, 0xf2, 0xde, 0x45, 0x83, 0xfa, 0x65, 0x41, 0x7f, 0x2f, 0x49, 0xba]


/-! ## libkern objects and the ACPI device -/

/-- The libkern object classes the controller meets: `OSNumber`, `OSString`,
`OSData`, `OSArray`, `OSDictionary`, and `other` for an object of any other
class. -/
inductive OSObject where
  | number (value : Nat) (bits : Nat)
  | string (chars : List Nat)
  | data (bytes : List Nat)
  | array (elems : List OSObject)
  | dictionary (entries : List (List Nat × OSObject))
  | other

/-- The contents of an `OSDictionary`: keys with their objects. -/
abbrev OSDictionary := List (List Nat × OSObject)

/-- The value an `OSNumber` made by `OSNumber::withNumber(value, numberOfBits)`
holds: the argument, converted to `unsigned long long`, masked to the given
number of bits. -/
def OSNumber.mask (value : Int) (bits : Nat) : Nat :=
  (value % 2 ^ 64).toNat % 2 ^ bits

/-- `OSNumber::withNumber(value, numberOfBits)`. -/
def OSNumber.withNumber (value : Int) (bits : Nat) : OSObject :=
  .number (OSNumber.mask value bits) bits

/-- `OSNumber::unsigned32BitValue()`. -/
def unsigned32BitValue (value : Nat) : Nat := value % 2 ^ 32

/-- `OSNumber::unsigned8BitValue()`. -/
def unsigned8BitValue (value : Nat) : Nat := value % 2 ^ 8

/-- `OSString::withCString(cString)`. -/
def OSString.withCString (buf : List Nat) : OSObject := .string (cString buf)

/-- `OSDictionary::getObject(key)`. -/
def OSDictionary.getObject (key : List Nat) : OSDictionary → Option OSObject
  | [] => none
  | (k, v) :: rest => if k = key then some v else OSDictionary.getObject key rest

/-- `OSDictionary::setObject(key, object)`: the object of an existing key is
replaced, a new key is added. -/
def OSDictionary.setObject (key : List Nat) (obj : OSObject) : OSDictionary → OSDictionary
  | [] => [(key, obj)]
  | (k, v) :: rest =>
    if k = key then (k, obj) :: rest else (k, v) :: OSDictionary.setObject key obj rest

/-- `OSDynamicCast(OSNumber, obj)`, giving the value of the number. -/
def castOSNumber : Option OSObject → Option Nat
  | some (.number v _) => some v
  | _ => none

/-- `OSDynamicCast(OSString, obj)`, giving the characters of the string. -/
def castOSString : Option OSObject → Option (List Nat)
  | some (.string s) => some s
  | _ => none

/-- `OSDynamicCast(OSData, obj)`, giving the bytes. -/
def castOSData : Option OSObject → Option (List Nat)
  | some (.data b) => some b
  | _ => none

/-- `OSDynamicCast(OSArray, obj)`, giving the elements. -/
def castOSArray : Option OSObject → Option (List OSObject)
  | some (.array a) => some a
  | _ => none

/-- `OSDynamicCast(OSDictionary, obj)`. -/
def castOSDictionary : Option OSObject → Option OSDictionary
  | some (.dictionary d) => some d
  | _ => none

/-- `IOReturn` status codes. -/
abbrev IOReturn := Nat

/-- `kIOReturnSuccess`. -/
def kIOReturnSuccess : IOReturn := 0

/-- `kIOReturnError`, the general error of IOKit. -/
def kIOReturnError : IOReturn := 0xe00002bc

/-- The ACPI device the controller is attached to, as the two evaluation calls
used: `evaluateObject(name, &result, params, count)` gives a status and the
result object (`none` for `NULL`), `evaluateInteger(name, &result, params,
count)` gives a status and the integer it stored through `result`, if it
stored one. -/
structure IOACPIPlatformDevice where
  evaluateObject : List Nat → List OSObject → IOReturn × Option OSObject
  evaluateInteger : List Nat → List OSObject → IOReturn × Option Nat

/-- A firmware evaluation call: the method name and the parameters. -/
abbrev EvalCall := List Nat × List OSObject

/-- Constants the code takes from headers that are not among the sources: the
`ACPI_WMI_EVENT` flag mask (`IOWMIController.h`) and the message type
`kIOACPIMessageDeviceNotification` (the ACPI platform headers).  Nothing below
depends on their values. -/
structure Headers where
  ACPI_WMI_EVENT : Nat
  kIOACPIMessageDeviceNotification : Nat

/-- The state of an `IOWMIController`: the dictionary `properties` handed to
`init` (IOKit keeps this same dictionary as the property table of the service,
so `setProperty` stores into it), the ACPI device `WMIDevice` and the sink
`_keyboardDevice` (`none` when no sink is attached, else its reference count). -/
structure IOWMIController where
  properties : OSDictionary
  WMIDevice : IOACPIPlatformDevice
  _keyboardDevice : Option Nat

/-! ## Descriptor table -/

/-- Modelled from the spec: the declaration of `struct guid_block` is in
`IOWMIController.h`, which is not among the sources.  The record is "guid: GUID,
union of object_id: 2-char ASCII tag and notify_id: 1 byte, instance_count:
byte, flags: byte bitmask", 20 bytes in all; `notify_id` shares its storage
with the first object-id character. -/
structure guid_block where
  guid : List Nat
  object_id : List Nat
  instance_count : Nat
  flags : Nat

/-- Modelled from the spec: the `notify_id` member of the union in
`struct guid_block` (declared in `IOWMIController.h`, not among the sources); it
shares its byte with the first object-id character. -/
def guid_block.notify_id (g : guid_block) : Nat := g.object_id.getD 0 0

/-- Modelled from the spec: `sizeof(struct guid_block)`, the record size of the
descriptor table (the struct is declared in `IOWMIController.h`, not among the
sources): 16 + 2 + 1 + 1 bytes. -/
def sizeof_guid_block : Nat := 20

/-- Modelled from the spec: the record seen through a `struct guid_block *` that
points at `p`, with the members of the struct (declared in `IOWMIController.h`,
not among the sources) laid out in the order the spec lists them. -/
def guid_block.at (p : List Nat) : guid_block where
  guid := p.take 16
  object_id := (p.drop 16).take 2
  instance_count := p.getD 18 0
  flags := p.getD 19 0

/-- The characters `snprintf(buf, size, format, ...)` stores before the
terminating NUL, given the fully formatted text: at most `size - 1` of them. -/
def snprintf (size : Nat) (text : List Nat) : List Nat := text.take (size - 1)

/-- `IOWMIController::readDataBlock(str)`: the dictionary returned and the
firmware call made. -/
def readDataBlock (self : IOWMIController) (str : List Nat) : OSDictionary × List EvalCall :=
  let name := snprintf 5 (lit "WQ" ++ cString str)
  let dict : OSDictionary := []
  let (ret, wqxx) := self.WMIDevice.evaluateObject name []
  if ret ≠ kIOReturnSuccess then (dict, [(name, [])])
  else
    match castOSData wqxx with
    | none => (dict, [(name, [])])
    | some data => (OSDictionary.setObject name (.data data) dict, [(name, [])])

/-- The dictionary `wmi_wdg2reg` builds for a record (release build: the
`flags Str` entry of DEBUG builds is not included). -/
def wdgDict (H : Headers) (g : guid_block) : OSDictionary :=
  let guid_string := wmi_data2Str g.guid
  let dict : OSDictionary := []
  let dict := OSDictionary.setObject (lit "UUID") (OSString.withCString guid_string) dict
  let dict :=
    if g.flags &&& H.ACPI_WMI_EVENT ≠ 0 then
      OSDictionary.setObject (lit "notify_value") (OSNumber.withNumber g.notify_id 8) dict
    else
      let object_id_string :=
        snprintf 3 [g.object_id.getD 0 0 % 256, g.object_id.getD 1 0 % 256] ++ [0]
      OSDictionary.setObject (lit "object_id") (OSString.withCString object_id_string) dict
  let dict :=
    OSDictionary.setObject (lit "instance_count") (OSNumber.withNumber g.instance_count 8) dict
  OSDictionary.setObject (lit "flags") (OSNumber.withNumber g.flags 8) dict

/-- The state `wmi_wdg2reg` works on: the two arrays and the firmware calls made
so far. -/
structure WdgState where
  array : List OSObject
  dataArray : List OSObject
  calls : List EvalCall

/-- `IOWMIController::wmi_wdg2reg(g, array, dataArray)`. -/
def wmi_wdg2reg (H : Headers) (self : IOWMIController) (g : guid_block) (st : WdgState) :
    WdgState :=
  let dict := wdgDict H g
  let st :=
    if g.flags = 0 then
      let object_id_string :=
        snprintf 3 [g.object_id.getD 0 0 % 256, g.object_id.getD 1 0 % 256] ++ [0]
      let r := readDataBlock self object_id_string
      { st with dataArray := st.dataArray ++ [.dictionary r.1], calls := st.calls ++ r.2 }
    else st
  { st with array := st.array ++ [.dictionary dict] }

/-- `IOWMIController::parse_wdg(dict)`: the controller afterwards and the
firmware calls made.  The argument `dict` is not used by the code. -/
def parse_wdg (H : Headers) (self : IOWMIController) : IOWMIController × List EvalCall :=
  let (ret, wdg) := self.WMIDevice.evaluateObject (lit "_WDG") []
  if ret ≠ kIOReturnSuccess then (self, [(lit "_WDG", [])])
  else
    match castOSData wdg with
    | none => (self, [(lit "_WDG", [])])
    | some data =>
      let total := (data.length / sizeof_guid_block) % 2 ^ 32
      let st := (List.range total).foldl
        (fun st i => wmi_wdg2reg H self (guid_block.at (data.drop (i * sizeof_guid_block))) st)
        ({ array := [], dataArray := [], calls := [(lit "_WDG", [])] } : WdgState)
      let props := OSDictionary.setObject (lit "WDG") (.array st.array) self.properties
      let props := OSDictionary.setObject (lit "DataBlocks") (.array st.dataArray) props
      ({ self with properties := props }, st.calls)


/-! ## Registry lookup and control-point accessors -/

/-- What running a piece of code comes to: it returns a value, or it faults (a
`NULL` pointer is dereferenced, or memory past the end of a buffer is read). -/
inductive Run (α : Type) where
  | ret (a : α)
  | fault
  deriving DecidableEq

/-- The loop of `getDictByUUID` over the remaining elements of the array;
`dict` is the value of the local variable `dict` on entry. -/
def getDictLoop (guid : List Nat) : List OSObject → Option OSDictionary →
    Run (Option OSDictionary)
  | [], dict => .ret dict
  | e :: rest, _ =>
    match castOSDictionary (some e) with
    | none => .fault
    | some dict =>
      match castOSString (dict.getObject (lit "UUID")) with
      | none => .fault
      | some uuid =>
        if uuid = guid then .ret (some dict) else getDictLoop guid rest (some dict)

/-- `IOWMIController::getDictByUUID(guid)`; `guid` is the C string passed. -/
def getDictByUUID (self : IOWMIController) (guid : List Nat) : Run (Option OSDictionary) :=
  match castOSArray (self.properties.getObject (lit "WDG")) with
  | none => .ret none
  | some array => getDictLoop guid array none

/-- The four bytes of a `UInt32` in memory (little-endian, as on x86). -/
def le32 (v : Nat) : List Nat :=
  [v % 256, v / 256 % 256, v / 65536 % 256, v / 16777216 % 256]

/-- What an accessor leaves behind: the value of `*status` on return and the
firmware calls made. -/
structure AccessOutcome where
  status : Nat
  calls : List EvalCall

/-- `IOWMIController::setDeviceStatus(guid, methodId, deviceId, status)`;
`status` is the value of `*status` on entry. -/
def setDeviceStatus (self : IOWMIController) (guid : List Nat)
    (methodId deviceId status : Nat) : Run AccessOutcome :=
  match getDictByUUID self guid with
  | .fault => .fault
  | .ret none => .ret ⟨status, []⟩
  | .ret (some dict) =>
    match castOSString (dict.getObject (lit "object_id")) with
    | none => .ret ⟨status, []⟩
    | some str =>
      let method := snprintf 5 (lit "WM" ++ str)
      let buffer := le32 deviceId ++ le32 status
      let params : List OSObject :=
        [OSNumber.withNumber 0x00D 32, OSNumber.withNumber methodId 32, .data buffer]
      -- *status = ~0
      let status := 2 ^ 32 - 1
      let r := self.WMIDevice.evaluateInteger method params
      .ret ⟨(r.2.getD status) % 2 ^ 32, [(method, params)]⟩

/-- `IOWMIController::setEvent(guid, state)`: the status returned and the
firmware calls made. -/
def setEvent (self : IOWMIController) (guid : List Nat) (state : Bool) :
    Run (IOReturn × List EvalCall) :=
  match getDictByUUID self guid with
  | .fault => .fault
  | .ret none => .ret (kIOReturnError, [])
  | .ret (some dict) =>
    match castOSNumber (dict.getObject (lit "notify_value")) with
    | none => .ret (kIOReturnError, [])
    | some num =>
      let method := snprintf 5 (lit "WE" ++ snprintf_02X (unsigned8BitValue num))
      let number := OSNumber.withNumber (if state then 1 else 0) 32
      let r := self.WMIDevice.evaluateObject method [number]
      .ret (r.1, [(method, [number])])

/-! ## Notification dispatch -/

/-- `IOWMIController::handleMessage(code)`: the codes passed on to
`_keyboardDevice->keyPressed`. -/
def handleMessage (self : IOWMIController) (code : Int) : List Int :=
  if self._keyboardDevice.isSome then [code] else []

/-- `IOWMIController::disableEvent()`: the controller afterwards and the sinks
released. -/
def disableEvent (self : IOWMIController) : IOWMIController × List Nat :=
  match self._keyboardDevice with
  | some k => ({ self with _keyboardDevice := none }, [k])
  | none => (self, [])

/-- How the classification of the `_WED` result in `message` ends: with the
local `number` (`none` for `NULL`), with an early `return`, or with a fault. -/
inductive Resolved where
  | number (n : Option Nat)
  | abort (ret : IOReturn)
  | fault

/-- The part of `message` between the `_WED` call and the final
`handleMessage`: the result `wed` is tried as a number, then as an array
(package), then as data (buffer). -/
def resolveWED (isNewDell : Bool) (wed : Option OSObject) : Resolved :=
  let number := castOSNumber wed
  if wed.isSome ∧ number.isNone then
    -- try a package
    match castOSArray wed with
    | none =>
      -- try a buffer
      match castOSData wed with
      | none => .abort kIOReturnError
      | some data =>
        if data.length = 0 then .abort kIOReturnError
        else
          match data.get? (if isNewDell then 4 else 0) with
          | none => .fault
          | some b =>
            -- OSNumber::withNumber(bytes[4], 32) or OSNumber::withNumber(bytes[0], 32)
            .number (some (OSNumber.mask (charValue b) 32))
    | some array =>
      match array.head? with
      | none => .fault
      | some e =>
        match castOSNumber (some e) with
        | none => .abort kIOReturnError
        | some v => .number (some v)
  else .number number

/-- What a call of `message` comes to: the arguments of its `handleMessage`
calls in order, the firmware calls made, and the status returned. -/
structure MessageOutcome where
  handled : List Int
  calls : List EvalCall
  ret : Run IOReturn

/-- `IOWMIController::message(type, provider, argument)`; `argument` is the
`UInt32` the pointer `argument` points at. -/
def message (H : Headers) (self : IOWMIController) (type : Nat) (argument : Nat) :
    MessageOutcome :=
  if type = H.kIOACPIMessageDeviceNotification then
    let event : Nat := argument % 2 ^ 32
    let number : Nat := OSNumber.mask event 32
    -- avoid parsing Dell's default AMW0 notification
    let isNewDell : Bool := decide (0xD0 = unsigned32BitValue number)
    let handled := if isNewDell then [] else [toInt32 (unsigned32BitValue number)]
    let number : OSObject := .number number 32
    let wed := (self.WMIDevice.evaluateObject (lit "_WED") [number]).2
    let calls := [(lit "_WED", [number])]
    match resolveWED isNewDell wed with
    | .fault => ⟨handled, calls, .fault⟩
    | .abort ret => ⟨handled, calls, .ret ret⟩
    | .number none => ⟨handled, calls, .ret kIOReturnSuccess⟩
    | .number (some v) =>
      ⟨handled ++ [toInt32 (unsigned32BitValue v)], calls, .ret kIOReturnSuccess⟩
  else
    -- someone unexpected is sending us messages
    ⟨[], [], .ret kIOReturnSuccess⟩


/-! ## Sample inputs -/

/-- Sample values for the header constants. -/
def exampleHeaders : Headers where
  ACPI_WMI_EVENT := 0x8
  kIOACPIMessageDeviceNotification := 0x10

/-- An ACPI device that answers `_WDG` with `wdg` and `_WED` with `wed`, and
fails every other evaluation. -/
def deviceReturning (wdg wed : Option OSObject) : IOACPIPlatformDevice where
  evaluateObject := fun name _ =>
    if name = lit "_WDG" then (kIOReturnSuccess, wdg)
    else if name = lit "_WED" then (kIOReturnSuccess, wed)
    else (kIOReturnError, none)
  evaluateInteger := fun _ _ => (kIOReturnError, none)

/-- A freshly initialised controller on the given device: empty properties, no
sink attached. -/
def controllerOn (dev : IOACPIPlatformDevice) : IOWMIController where
  properties := []
  WMIDevice := dev
  _keyboardDevice := none

/-- A descriptor record: the example GUID, `notify_id = 0x0D`, one instance,
flags `0x08` (the EVENT bit of `exampleHeaders`). -/
def exampleBlockA : List Nat := exampleGuid ++ [0x0D, 0x00, 1, 0x08]

/-- A descriptor record: GUID bytes `1, .., 16`, `object_id = "AB"`, one
instance, flags `0`. -/
def exampleBlockB : List Nat :=
  [1, 2, 3, 4, 5, 6, 7, 8, 9, 10, 11, 12, 13, 14, 15, 16] ++ [0x41, 0x42, 1, 0x00]

/-- The controller after `parse_wdg` on a device whose `_WDG` holds the two
records `exampleBlockA`, `exampleBlockB`. -/
def exampleController : IOWMIController :=
  (parse_wdg exampleHeaders
    (controllerOn (deviceReturning (some (.data (exampleBlockA ++ exampleBlockB))) none))).1

/-- An ACPI device that answers `_WDG` with the buffer `blob` and accepts every
other evaluation (success, no result object, no integer stored). -/
def deviceWithTable (blob : List Nat) : IOACPIPlatformDevice where
  evaluateObject := fun name _ =>
    if name = lit "_WDG" then (kIOReturnSuccess, some (.data blob))
    else (kIOReturnSuccess, none)
  evaluateInteger := fun _ _ => (kIOReturnSuccess, none)

/-- The controller after `parse_wdg` on a device whose `_WDG` holds the sample
records in the order B, A, so that the last entry of the registry is the event
entry A. -/
def exampleControllerBA : IOWMIController :=
  (parse_wdg exampleHeaders (controllerOn (deviceWithTable (exampleBlockB ++ exampleBlockA)))).1

/-- A descriptor record whose first object-id byte is NUL: the example GUID,
object-id bytes `00 'B'`, one instance, flags `0`. -/
def exampleBlockNul : List Nat := exampleGuid ++ [0x00, 0x42, 1, 0x00]

/-! ## Lemmas on the GUID codec -/

theorem length_succ_cases {l : List Nat} {n : Nat} (h : l.length = n + 1) :
    ∃ a t, l = a :: t ∧ t.length = n := by
  cases l with
  | nil => simp at h
  | cons a t => exact ⟨a, t, rfl, by simpa using h⟩

theorem block16_cases (l : List Nat) (h : l.length = 16) :
    ∃ a0 a1 a2 a3 a4 a5 a6 a7 a8 a9 a10 a11 a12 a13 a14 a15 : Nat, l = [a0, a1, a2, a3, a4, a5, a6,
        a7, a8, a9, a10, a11, a12, a13, a14, a15] := by
  obtain ⟨a0, t0, rfl, h0⟩ := length_succ_cases h
  obtain ⟨a1, t1, rfl, h1⟩ := length_succ_cases h0
  obtain ⟨a2, t2, rfl, h2⟩ := length_succ_cases h1
  obtain ⟨a3, t3, rfl, h3⟩ := length_succ_cases h2
  obtain ⟨a4, t4, rfl, h4⟩ := length_succ_cases h3
  obtain ⟨a5, t5, rfl, h5⟩ := length_succ_cases h4
  obtain ⟨a6, t6, rfl, h6⟩ := length_succ_cases h5
  obtain ⟨a7, t7, rfl, h7⟩ := length_succ_cases h6
  obtain ⟨a8, t8, rfl, h8⟩ := length_succ_cases h7
  obtain ⟨a9, t9, rfl, h9⟩ := length_succ_cases h8
  obtain ⟨a10, t10, rfl, h10⟩ := length_succ_cases h9
  obtain ⟨a11, t11, rfl, h11⟩ := length_succ_cases h10
  obtain ⟨a12, t12, rfl, h12⟩ := length_succ_cases h11
  obtain ⟨a13, t13, rfl, h13⟩ := length_succ_cases h12
  obtain ⟨a14, t14, rfl, h14⟩ := length_succ_cases h13
  obtain ⟨a15, t15, rfl, h15⟩ := length_succ_cases h14
  obtain rfl := List.length_eq_zero.mp h15
  exact ⟨a0, a1, a2, a3, a4, a5, a6, a7, a8, a9, a10, a11, a12, a13, a14, a15, rfl⟩

theorem and0xFF_charValue (b : Nat) : and0xFF (charValue b) = b % 256 := by
  unfold and0xFF charValue
  split <;> omega

theorem hexUpper_upper (d : Nat) (h : d < 16) : isUpperHexDigit (hexUpper d) := by
  unfold isUpperHexDigit hexUpper
  split <;> omega


theorem shl_or_digits : ∀ h < 16, ∀ d < 16, ((h <<< 4) % 2 ^ 32 ||| d) = 16 * h + d := by
  decide

theorem usub32_le_iff (x k n : Nat) (hx : x < 2 ^ 32) (hk : k + n < 2 ^ 32) :
    usub32 x k ≤ n ↔ k ≤ x ∧ x ≤ k + n := by
  unfold usub32
  simp only [Nat.reducePow] at *
  omega

theorem usub32_of_le (x k : Nat) (hx : x < 2 ^ 32) (hk : k ≤ x) : usub32 x k = x - k := by
  unfold usub32
  simp only [Nat.reducePow] at *
  omega

theorem toInt32_small (n : Nat) (h : n < 2 ^ 31) : toInt32 n = (n : Int) := by
  unfold toInt32
  simp only [Nat.reducePow] at *
  have : n % 4294967296 = n := by omega
  simp [this, h]

theorem hexValue_lt (c : Nat) : hexValue c < 16 := by
  unfold hexValue
  split_ifs <;> omega


theorem uadd32_small (x y : Nat) (h : x + y < 2 ^ 32) : uadd32 x y = x + y := by
  unfold uadd32
  exact Nat.mod_eq_of_lt h

theorem hexbyteLow_eq (h c1 : Nat) (c0 : Nat) (rest : List Nat) (hh : h < 16) (h1 : c1 < 256) :
    hexbyteLow h (c0 :: c1 :: rest) =
      if isHexDigit c1 then ((16 * h + hexValue c1 : Nat) : Int) else -1 := by
  have f0 := usub32_le_iff c1 48 9 (by omega) (by norm_num)
  have f1 := usub32_le_iff c1 97 5 (by omega) (by norm_num)
  have f2 := usub32_le_iff c1 65 5 (by omega) (by norm_num)
  have key : ∀ d : Nat, d < 16 →
      toInt32 ((h <<< 4) % 2 ^ 32 ||| d) = ((16 * h + d : Nat) : Int) := by
    intro d hd
    rw [shl_or_digits h hh d hd]
    exact toInt32_small _ (by norm_num; omega)
  unfold hexbyteLow isHexDigit hexValue
  simp only [List.getD_cons_zero, List.getD_cons_succ, Nat.reduceSub, f0, f1, f2, Nat.reduceAdd]
  by_cases a0 : 48 ≤ c1 ∧ c1 ≤ 57
  · have u := usub32_of_le c1 48 (by omega) a0.1
    rw [u, key (c1 - 48) (by omega)]
    simp [a0]
  · by_cases a1 : 97 ≤ c1 ∧ c1 ≤ 102
    · have u := usub32_of_le c1 97 (by omega) a1.1
      have v := uadd32_small (c1 - 97) 10 (by norm_num; omega)
      rw [u, v, key (c1 - 97 + 10) (by omega)]
      simp [a0, a1]
    · by_cases a2 : 65 ≤ c1 ∧ c1 ≤ 70
      · have u := usub32_of_le c1 65 (by omega) a2.1
        have v := uadd32_small (c1 - 65) 10 (by norm_num; omega)
        rw [u, v, key (c1 - 65 + 10) (by omega)]
        simp [a0, a1, a2]
      · simp [a0, a1, a2]

theorem hexbyte_eq (c0 c1 : Nat) (rest : List Nat) (h0 : c0 < 256) (h1 : c1 < 256) :
    wmi_parse_hexbyte (c0 :: c1 :: rest) =
      if isHexDigit c0 ∧ isHexDigit c1 then ((16 * hexValue c0 + hexValue c1 : Nat) : Int)
      else -1 := by
  have e0 := usub32_le_iff c0 48 9 (by omega) (by norm_num)
  have e1 := usub32_le_iff c0 97 5 (by omega) (by norm_num)
  have e2 := usub32_le_iff c0 65 5 (by omega) (by norm_num)
  unfold wmi_parse_hexbyte
  simp only [List.getD_cons_zero, Nat.reduceSub, e0, e1, e2, Nat.reduceAdd]
  by_cases a0 : 48 ≤ c0 ∧ c0 ≤ 57
  · have u := usub32_of_le c0 48 (by omega) a0.1
    rw [u, hexbyteLow_eq (c0 - 48) c1 c0 rest (by omega) h1]
    simp [a0, isHexDigit, hexValue]
  · by_cases a1 : 97 ≤ c0 ∧ c0 ≤ 102
    · have u := usub32_of_le c0 97 (by omega) a1.1
      have v := uadd32_small (c0 - 97) 10 (by norm_num; omega)
      rw [u, v, hexbyteLow_eq (c0 - 97 + 10) c1 c0 rest (by omega) h1]
      simp [a0, a1, isHexDigit, hexValue]
    · by_cases a2 : 65 ≤ c0 ∧ c0 ≤ 70
      · have u := usub32_of_le c0 65 (by omega) a2.1
        have v := uadd32_small (c0 - 65) 10 (by norm_num; omega)
        rw [u, v, hexbyteLow_eq (c0 - 65 + 10) c1 c0 rest (by omega) h1]
        simp [a0, a1, a2, isHexDigit, hexValue]
      · simp [a0, a1, a2, isHexDigit]


theorem neg_one_lt_zero_ite (P : Prop) [Decidable P] (n : Nat) :
    ((if P then ((n : Nat) : Int) else -1) < 0) ↔ ¬ P := by
  split <;> simp_all

theorem parseGroup_succ_cons (n c0 c1 : Nat) (rest dest : List Nat) (h0 : c0 < 256)
    (h1 : c1 < 256) :
    parseGroup (n + 1) (c0 :: c1 :: rest) dest =
      if isHexDigit c0 ∧ isHexDigit c1 then
        parseGroup n rest (dest ++ [16 * hexValue c0 + hexValue c1])
      else none := by
  rw [parseGroup, hexbyte_eq c0 c1 rest h0 h1]
  simp only [neg_one_lt_zero_ite]
  by_cases hP : isHexDigit c0 ∧ isHexDigit c1
  · have hv : 16 * hexValue c0 + hexValue c1 < 256 := by
      have := hexValue_lt c0
      have := hexValue_lt c1
      omega
    simp only [hP, not_true_eq_false, if_false, if_true, and_self, List.drop_succ_cons,
      List.drop_zero]
    congr 2
    simp only [List.cons.injEq, and_true]
    omega
  · simp [hP]

theorem parseGroups_cons_succ (n c0 c1 : Nat) (sizes rest dest : List Nat) (h0 : c0 < 256)
    (h1 : c1 < 256) :
    parseGroups ((n + 1) :: sizes) (c0 :: c1 :: rest) dest =
      if isHexDigit c0 ∧ isHexDigit c1 then
        parseGroups (n :: sizes) rest (dest ++ [16 * hexValue c0 + hexValue c1])
      else none := by
  rw [parseGroups, parseGroup_succ_cons n c0 c1 rest dest h0 h1]
  by_cases hP : isHexDigit c0 ∧ isHexDigit c1
  · simp only [hP, and_self, if_true]
    rw [parseGroups]
  · simp [hP]

theorem parseGroups_cons_zero (sizes src dest : List Nat) :
    parseGroups (0 :: sizes) src dest = parseGroups sizes (src.drop 1) dest := by
  rw [parseGroups, parseGroup]

theorem parse_guid_explicit (c0 c1 c2 c3 c4 c5 c6 c7 c8 c9 c10 c11 c12 c13 c14 c15 c16 c17 c18 c19
    c20 c21 c22 c23 c24 c25 c26 c27 c28 c29 c30 c31 c32 c33 c34 c35 : Nat) (rest : List Nat)
    (hb : c0 < 256 ∧ c1 < 256 ∧ c2 < 256 ∧ c3 < 256 ∧ c4 < 256 ∧ c5 < 256 ∧ c6 < 256 ∧ c7 < 256 ∧
        c9 < 256 ∧ c10 < 256 ∧ c11 < 256 ∧ c12 < 256 ∧ c14 < 256 ∧ c15 < 256 ∧ c16 < 256 ∧ c17 <
        256 ∧ c19 < 256 ∧ c20 < 256 ∧ c21 < 256 ∧ c22 < 256 ∧ c24 < 256 ∧ c25 < 256 ∧ c26 < 256 ∧
        c27 < 256 ∧ c28 < 256 ∧ c29 < 256 ∧ c30 < 256 ∧ c31 < 256 ∧ c32 < 256 ∧ c33 < 256 ∧ c34 <
        256 ∧ c35 < 256) :
    wmi_parse_guid (c0 :: c1 :: c2 :: c3 :: c4 :: c5 :: c6 :: c7 :: c8 :: c9 :: c10 :: c11 :: c12
        :: c13 :: c14 :: c15 :: c16 :: c17 :: c18 :: c19 :: c20 :: c21 :: c22 :: c23 :: c24 :: c25
        :: c26 :: c27 :: c28 :: c29 :: c30 :: c31 :: c32 :: c33 :: c34 :: c35 :: rest) =
      if (c8 = dash ∧ c13 = dash ∧ c18 = dash ∧ c23 = dash) ∧
          isHexDigit c0 ∧ isHexDigit c1 ∧ isHexDigit c2 ∧ isHexDigit c3 ∧ isHexDigit c4 ∧
              isHexDigit c5 ∧ isHexDigit c6 ∧ isHexDigit c7 ∧ isHexDigit c9 ∧ isHexDigit c10 ∧
              isHexDigit c11 ∧ isHexDigit c12 ∧ isHexDigit c14 ∧ isHexDigit c15 ∧ isHexDigit c16 ∧
              isHexDigit c17 ∧ isHexDigit c19 ∧ isHexDigit c20 ∧ isHexDigit c21 ∧ isHexDigit c22 ∧
              isHexDigit c24 ∧ isHexDigit c25 ∧ isHexDigit c26 ∧ isHexDigit c27 ∧ isHexDigit c28 ∧
              isHexDigit c29 ∧ isHexDigit c30 ∧ isHexDigit c31 ∧ isHexDigit c32 ∧ isHexDigit c33 ∧
              isHexDigit c34 ∧ isHexDigit c35 then
        some [16 * hexValue c0 + hexValue c1, 16 * hexValue c2 + hexValue c3, 16 * hexValue c4 +
            hexValue c5, 16 * hexValue c6 + hexValue c7, 16 * hexValue c9 + hexValue c10, 16 *
            hexValue c11 + hexValue c12, 16 * hexValue c14 + hexValue c15, 16 * hexValue c16 +
            hexValue c17, 16 * hexValue c19 + hexValue c20, 16 * hexValue c21 + hexValue c22, 16 *
            hexValue c24 + hexValue c25, 16 * hexValue c26 + hexValue c27, 16 * hexValue c28 +
            hexValue c29, 16 * hexValue c30 + hexValue c31, 16 * hexValue c32 + hexValue c33, 16 *
            hexValue c34 + hexValue c35]
      else none := by
  obtain ⟨b0, b1, b2, b3, b4, b5, b6, b7, b9, b10, b11, b12, b14, b15, b16, b17, b19, b20, b21,
      b22, b24, b25, b26, b27, b28, b29, b30, b31, b32, b33, b34, b35⟩ := hb
  unfold wmi_parse_guid
  simp only [List.getD_cons_zero, List.getD_cons_succ]
  by_cases hd : c8 = dash ∧ c13 = dash ∧ c18 = dash ∧ c23 = dash
  · obtain ⟨rfl, rfl, rfl, rfl⟩ := hd
    simp only [ne_eq, not_true_eq_false, or_self, if_false, and_self, true_and,
      parseGroups_cons_succ _ c0 c1 _ _ _ b0 b1, parseGroups_cons_succ _ c2 c3 _ _ _ b2 b3,
          parseGroups_cons_succ _ c4 c5 _ _ _ b4 b5, parseGroups_cons_succ _ c6 c7 _ _ _ b6 b7,
          parseGroups_cons_succ _ c9 c10 _ _ _ b9 b10, parseGroups_cons_succ _ c11 c12 _ _ _ b11
          b12, parseGroups_cons_succ _ c14 c15 _ _ _ b14 b15, parseGroups_cons_succ _ c16 c17 _ _ _
          b16 b17, parseGroups_cons_succ _ c19 c20 _ _ _ b19 b20, parseGroups_cons_succ _ c21 c22 _
          _ _ b21 b22, parseGroups_cons_succ _ c24 c25 _ _ _ b24 b25, parseGroups_cons_succ _ c26
          c27 _ _ _ b26 b27, parseGroups_cons_succ _ c28 c29 _ _ _ b28 b29, parseGroups_cons_succ _
          c30 c31 _ _ _ b30 b31, parseGroups_cons_succ _ c32 c33 _ _ _ b32 b33,
          parseGroups_cons_succ _ c34 c35 _ _ _ b34 b35,
      parseGroups_cons_zero, List.drop_succ_cons, List.drop_zero, List.nil_append,
      List.cons_append, List.append_assoc]
    rw [parseGroups]
    simp only [ite_and, if_true]
  · have hd2 : c8 ≠ dash ∨ c13 ≠ dash ∨ c18 ≠ dash ∨ c23 ≠ dash := by
      by_contra hcon
      simp only [not_or, ne_eq, not_not] at hcon
      exact hd hcon
    simp only [hd2, if_true, hd, false_and, if_false]

theorem block36_cases (l : List Nat) (h : l.length = 36) :
    ∃ a0 a1 a2 a3 a4 a5 a6 a7 a8 a9 a10 a11 a12 a13 a14 a15 a16 a17 a18 a19 a20 a21 a22 a23 a24 a25
        a26 a27 a28 a29 a30 a31 a32 a33 a34 a35 : Nat,
      l = [a0, a1, a2, a3, a4, a5, a6, a7, a8, a9, a10, a11, a12, a13, a14, a15, a16, a17, a18,
          a19, a20, a21, a22, a23, a24, a25, a26, a27, a28, a29, a30, a31, a32, a33, a34, a35] := by
  obtain ⟨a0, t0, rfl, h0⟩ := length_succ_cases h
  obtain ⟨a1, t1, rfl, h1⟩ := length_succ_cases h0
  obtain ⟨a2, t2, rfl, h2⟩ := length_succ_cases h1
  obtain ⟨a3, t3, rfl, h3⟩ := length_succ_cases h2
  obtain ⟨a4, t4, rfl, h4⟩ := length_succ_cases h3
  obtain ⟨a5, t5, rfl, h5⟩ := length_succ_cases h4
  obtain ⟨a6, t6, rfl, h6⟩ := length_succ_cases h5
  obtain ⟨a7, t7, rfl, h7⟩ := length_succ_cases h6
  obtain ⟨a8, t8, rfl, h8⟩ := length_succ_cases h7
  obtain ⟨a9, t9, rfl, h9⟩ := length_succ_cases h8
  obtain ⟨a10, t10, rfl, h10⟩ := length_succ_cases h9
  obtain ⟨a11, t11, rfl, h11⟩ := length_succ_cases h10
  obtain ⟨a12, t12, rfl, h12⟩ := length_succ_cases h11
  obtain ⟨a13, t13, rfl, h13⟩ := length_succ_cases h12
  obtain ⟨a14, t14, rfl, h14⟩ := length_succ_cases h13
  obtain ⟨a15, t15, rfl, h15⟩ := length_succ_cases h14
  obtain ⟨a16, t16, rfl, h16⟩ := length_succ_cases h15
  obtain ⟨a17, t17, rfl, h17⟩ := length_succ_cases h16
  obtain ⟨a18, t18, rfl, h18⟩ := length_succ_cases h17
  obtain ⟨a19, t19, rfl, h19⟩ := length_succ_cases h18
  obtain ⟨a20, t20, rfl, h20⟩ := length_succ_cases h19
  obtain ⟨a21, t21, rfl, h21⟩ := length_succ_cases h20
  obtain ⟨a22, t22, rfl, h22⟩ := length_succ_cases h21
  obtain ⟨a23, t23, rfl, h23⟩ := length_succ_cases h22
  obtain ⟨a24, t24, rfl, h24⟩ := length_succ_cases h23
  obtain ⟨a25, t25, rfl, h25⟩ := length_succ_cases h24
  obtain ⟨a26, t26, rfl, h26⟩ := length_succ_cases h25
  obtain ⟨a27, t27, rfl, h27⟩ := length_succ_cases h26
  obtain ⟨a28, t28, rfl, h28⟩ := length_succ_cases h27
  obtain ⟨a29, t29, rfl, h29⟩ := length_succ_cases h28
  obtain ⟨a30, t30, rfl, h30⟩ := length_succ_cases h29
  obtain ⟨a31, t31, rfl, h31⟩ := length_succ_cases h30
  obtain ⟨a32, t32, rfl, h32⟩ := length_succ_cases h31
  obtain ⟨a33, t33, rfl, h33⟩ := length_succ_cases h32
  obtain ⟨a34, t34, rfl, h34⟩ := length_succ_cases h33
  obtain ⟨a35, t35, rfl, h35⟩ := length_succ_cases h34
  obtain rfl := List.length_eq_zero.mp h35
  exact ⟨a0, a1, a2, a3, a4, a5, a6, a7, a8, a9, a10, a11, a12, a13, a14, a15, a16, a17, a18, a19,
      a20, a21, a22, a23, a24, a25, a26, a27, a28, a29, a30, a31, a32, a33, a34, a35, rfl⟩

theorem data2Str_explicit (a0 a1 a2 a3 a4 a5 a6 a7 a8 a9 a10 a11 a12 a13 a14 a15 : Nat) :
    wmi_data2Str [a0, a1, a2, a3, a4, a5, a6, a7, a8, a9, a10, a11, a12, a13, a14, a15] =
      [hexUpper (a3 % 256 / 16 % 16), hexUpper (a3 % 256 % 16), hexUpper (a2 % 256 / 16 % 16),
          hexUpper (a2 % 256 % 16), hexUpper (a1 % 256 / 16 % 16), hexUpper (a1 % 256 % 16),
          hexUpper (a0 % 256 / 16 % 16), hexUpper (a0 % 256 % 16), dash, hexUpper (a5 % 256 / 16 %
          16), hexUpper (a5 % 256 % 16), hexUpper (a4 % 256 / 16 % 16), hexUpper (a4 % 256 % 16),
          dash, hexUpper (a7 % 256 / 16 % 16), hexUpper (a7 % 256 % 16), hexUpper (a6 % 256 / 16 %
          16), hexUpper (a6 % 256 % 16), dash, hexUpper (a8 % 256 / 16 % 16), hexUpper (a8 % 256 %
          16), hexUpper (a9 % 256 / 16 % 16), hexUpper (a9 % 256 % 16), dash, hexUpper (a10 % 256 /
          16 % 16), hexUpper (a10 % 256 % 16), hexUpper (a11 % 256 / 16 % 16), hexUpper (a11 % 256
          % 16), hexUpper (a12 % 256 / 16 % 16), hexUpper (a12 % 256 % 16), hexUpper (a13 % 256 /
          16 % 16), hexUpper (a13 % 256 % 16), hexUpper (a14 % 256 / 16 % 16), hexUpper (a14 % 256
          % 16), hexUpper (a15 % 256 / 16 % 16), hexUpper (a15 % 256 % 16), 0] := by
  simp [wmi_data2Str, snprintf_02X, and0xFF_charValue]

theorem hexUpper_ne_zero (d : Nat) : hexUpper d ≠ 0 := by
  unfold hexUpper
  split <;> omega

theorem hexUpper_lt (d : Nat) (h : d < 16) : hexUpper d < 256 := by
  unfold hexUpper
  split <;> omega

theorem hexUpper_isHexDigit (d : Nat) (h : d < 16) : isHexDigit (hexUpper d) := by
  unfold isHexDigit hexUpper
  split <;> omega

theorem hexValue_hexUpper (d : Nat) (h : d < 16) : hexValue (hexUpper d) = d := by
  unfold hexValue hexUpper
  split_ifs <;> omega

theorem cString_data2Str_explicit (a0 a1 a2 a3 a4 a5 a6 a7 a8 a9 a10 a11 a12 a13 a14 a15 : Nat) :
    cString (wmi_data2Str [a0, a1, a2, a3, a4, a5, a6, a7, a8, a9, a10, a11, a12, a13, a14, a15]) =
      [hexUpper (a3 % 256 / 16 % 16), hexUpper (a3 % 256 % 16), hexUpper (a2 % 256 / 16 % 16),
          hexUpper (a2 % 256 % 16), hexUpper (a1 % 256 / 16 % 16), hexUpper (a1 % 256 % 16),
          hexUpper (a0 % 256 / 16 % 16), hexUpper (a0 % 256 % 16), dash, hexUpper (a5 % 256 / 16 %
          16), hexUpper (a5 % 256 % 16), hexUpper (a4 % 256 / 16 % 16), hexUpper (a4 % 256 % 16),
          dash, hexUpper (a7 % 256 / 16 % 16), hexUpper (a7 % 256 % 16), hexUpper (a6 % 256 / 16 %
          16), hexUpper (a6 % 256 % 16), dash, hexUpper (a8 % 256 / 16 % 16), hexUpper (a8 % 256 %
          16), hexUpper (a9 % 256 / 16 % 16), hexUpper (a9 % 256 % 16), dash, hexUpper (a10 % 256 /
          16 % 16), hexUpper (a10 % 256 % 16), hexUpper (a11 % 256 / 16 % 16), hexUpper (a11 % 256
          % 16), hexUpper (a12 % 256 / 16 % 16), hexUpper (a12 % 256 % 16), hexUpper (a13 % 256 /
          16 % 16), hexUpper (a13 % 256 % 16), hexUpper (a14 % 256 / 16 % 16), hexUpper (a14 % 256
          % 16), hexUpper (a15 % 256 / 16 % 16), hexUpper (a15 % 256 % 16)] := by
  rw [data2Str_explicit]
  simp [cString, List.takeWhile_cons, hexUpper_ne_zero, dash]

theorem parse_format_explicit (a0 a1 a2 a3 a4 a5 a6 a7 a8 a9 a10 a11 a12 a13 a14 a15 : Nat)
    (hb : ∀ b ∈ [a0, a1, a2, a3, a4, a5, a6, a7, a8, a9, a10, a11, a12, a13, a14, a15], b < 256) :
    wmi_parse_guid (wmi_data2Str [a0, a1, a2, a3, a4, a5, a6, a7, a8, a9, a10, a11, a12, a13, a14,
        a15]) =
      some [a3, a2, a1, a0, a5, a4, a7, a6, a8, a9, a10, a11, a12, a13, a14, a15] := by
  simp only [List.mem_cons, List.mem_singleton, forall_eq_or_imp, forall_eq, List.not_mem_nil,
    false_implies, implies_true, and_true] at hb
  obtain ⟨b0, b1, b2, b3, b4, b5, b6, b7, b8, b9, b10, b11, b12, b13, b14, b15⟩ := hb
  have hu : ∀ d, d < 16 → hexUpper d < 256 := hexUpper_lt
  have hx : ∀ d, d < 16 → isHexDigit (hexUpper d) := hexUpper_isHexDigit
  have hv : ∀ a, a < 256 →
      16 * hexValue (hexUpper (a % 256 / 16 % 16)) + hexValue (hexUpper (a % 256 % 16)) = a := by
    intro a ha
    rw [hexValue_hexUpper _ (by omega), hexValue_hexUpper _ (by omega)]
    omega
  rw [data2Str_explicit, parse_guid_explicit]
  · rw [if_pos]
    · simp only [hv _ b0, hv _ b1, hv _ b2, hv _ b3, hv _ b4, hv _ b5, hv _ b6, hv _ b7,
        hv _ b8, hv _ b9, hv _ b10, hv _ b11, hv _ b12, hv _ b13, hv _ b14, hv _ b15]
    · refine ⟨⟨rfl, rfl, rfl, rfl⟩, ?_⟩
      repeat' apply And.intro
      all_goals exact hx _ (by omega)
  · repeat' apply And.intro
    all_goals exact hu _ (by omega)


/-! ## The GUID codec: byte swap, format, parse -/

/-- C5. For 16-byte blocks, `wmi_swap_bytes` writes the source with bytes 0-3
reversed, bytes 4-5 reversed, bytes 6-7 reversed and bytes 8-15 copied in
place, and swapping the result once more gives back the source. -/
theorem wmi_swap_bytes_involution (src dest dest2 : List Nat) (hs : src.length = 16)
    (hd : dest.length = 16) (hd2 : dest2.length = 16) :
    (wmi_swap_bytes src dest).length = 16 ∧
    (∀ i, i < 4 → (wmi_swap_bytes src dest).getD i 0 = src.getD (3 - i) 0) ∧
    (∀ i, i < 2 → (wmi_swap_bytes src dest).getD (4 + i) 0 = src.getD (5 - i) 0) ∧
    (∀ i, i < 2 → (wmi_swap_bytes src dest).getD (6 + i) 0 = src.getD (7 - i) 0) ∧
    (∀ i, 8 ≤ i → i < 16 → (wmi_swap_bytes src dest).getD i 0 = src.getD i 0) ∧
    wmi_swap_bytes (wmi_swap_bytes src dest) dest2 = src := by
  obtain ⟨a0, a1, a2, a3, a4, a5, a6, a7, a8, a9, a10, a11, a12, a13, a14, a15, rfl⟩ :=
    block16_cases src hs
  obtain ⟨b0, b1, b2, b3, b4, b5, b6, b7, b8, b9, b10, b11, b12, b13, b14, b15, rfl⟩ :=
    block16_cases dest hd
  obtain ⟨e0, e1, e2, e3, e4, e5, e6, e7, e8, e9, e10, e11, e12, e13, e14, e15, rfl⟩ :=
    block16_cases dest2 hd2
  refine ⟨rfl, ?_, ?_, ?_, ?_, rfl⟩
  · intro i hi
    interval_cases i <;> rfl
  · intro i hi
    interval_cases i <;> rfl
  · intro i hi
    interval_cases i <;> rfl
  · intro i h8 hi
    interval_cases i <;> rfl

/-- Witness for C5: the block `1, 2, .., 16`. -/
theorem wmi_swap_bytes_involution_witness :
    wmi_swap_bytes [1, 2, 3, 4, 5, 6, 7, 8, 9, 10, 11, 12, 13, 14, 15, 16]
        (List.replicate 16 0) = [4, 3, 2, 1, 6, 5, 8, 7, 9, 10, 11, 12, 13, 14, 15, 16] ∧
    wmi_swap_bytes (wmi_swap_bytes [1, 2, 3, 4, 5, 6, 7, 8, 9, 10, 11, 12, 13, 14, 15, 16]
        (List.replicate 16 0)) (List.replicate 16 0) =
      [1, 2, 3, 4, 5, 6, 7, 8, 9, 10, 11, 12, 13, 14, 15, 16] :=
  ⟨by decide,
    (wmi_swap_bytes_involution [1, 2, 3, 4, 5, 6, 7, 8, 9, 10, 11, 12, 13, 14, 15, 16]
      (List.replicate 16 0) (List.replicate 16 0) (by decide) (by decide) (by decide)).2.2.2.2.2⟩


/-- C6. For every 16-byte GUID, `wmi_data2Str` stores 36 characters followed by
the terminating NUL; the characters at offsets 8, 13, 18 and 23 are `'-'` and
every other one is a digit `0-9` or an upper-case letter `A-F`. -/
theorem wmi_data2Str_shape (g : List Nat) (hg : g.length = 16) :
    wmi_data2Str g = cString (wmi_data2Str g) ++ [0] ∧
    (cString (wmi_data2Str g)).length = 36 ∧
    ∀ i, i < 36 →
      ((i = 8 ∨ i = 13 ∨ i = 18 ∨ i = 23) → (cString (wmi_data2Str g)).getD i 0 = dash) ∧
      (¬ (i = 8 ∨ i = 13 ∨ i = 18 ∨ i = 23) →
        isUpperHexDigit ((cString (wmi_data2Str g)).getD i 0)) := by
  obtain ⟨a0, a1, a2, a3, a4, a5, a6, a7, a8, a9, a10, a11, a12, a13, a14, a15, rfl⟩ :=
    block16_cases g hg
  have hx : ∀ a : Nat, isUpperHexDigit (hexUpper (a % 256 / 16 % 16)) ∧
      isUpperHexDigit (hexUpper (a % 256 % 16)) := fun a =>
    ⟨hexUpper_upper _ (by omega), hexUpper_upper _ (by omega)⟩
  rw [cString_data2Str_explicit, data2Str_explicit]
  refine ⟨rfl, rfl, ?_⟩
  intro i hi
  interval_cases i <;>
    simp only [List.getD_cons_zero, List.getD_cons_succ, (hx _).1, (hx _).2] <;> simp

/-- Witness for C6: the GUID of the example in the source,
`FA50FF2B-F2E8-45DE-83FA-65417F2F49BA`. -/
theorem wmi_data2Str_shape_witness :
    exampleGuid.length = 16 ∧ (cString (wmi_data2Str exampleGuid)).length = 36 :=
  ⟨by decide, (wmi_data2Str_shape exampleGuid (by decide)).2.1⟩

/-- C4, as stated, fails: formatting the GUID bytes `1, 2, .., 16` and parsing
the string does not give the same bytes back. -/
theorem parse_format_not_identity :
    wmi_parse_guid (wmi_data2Str [1, 2, 3, 4, 5, 6, 7, 8, 9, 10, 11, 12, 13, 14, 15, 16]) ≠
      some [1, 2, 3, 4, 5, 6, 7, 8, 9, 10, 11, 12, 13, 14, 15, 16] := by
  decide

/-- C4, amended. For every 16-byte GUID, parsing the formatted string succeeds
and gives 16 bytes that `wmi_swap_bytes` turns back into the GUID; bytes 8-15
of the parsed block are those of the GUID. -/
theorem parse_format_swap_back (g dest : List Nat) (hg : g.length = 16)
    (hd : dest.length = 16) (hb : ∀ b ∈ g, b < 256) :
    ∃ d, wmi_parse_guid (wmi_data2Str g) = some d ∧ d.length = 16 ∧
      wmi_swap_bytes d dest = g ∧ d.drop 8 = g.drop 8 := by
  obtain ⟨a0, a1, a2, a3, a4, a5, a6, a7, a8, a9, a10, a11, a12, a13, a14, a15, rfl⟩ :=
    block16_cases g hg
  obtain ⟨b0, b1, b2, b3, b4, b5, b6, b7, b8, b9, b10, b11, b12, b13, b14, b15, rfl⟩ :=
    block16_cases dest hd
  exact ⟨_, parse_format_explicit _ _ _ _ _ _ _ _ _ _ _ _ _ _ _ _ hb, rfl, rfl, rfl⟩

/-- Witness for C4, amended: the GUID of the example in the source. -/
theorem parse_format_swap_back_witness :
    exampleGuid.length = 16 ∧ (∀ b ∈ exampleGuid, b < 256) ∧
    ∃ d, wmi_parse_guid (wmi_data2Str exampleGuid) = some d ∧ d.length = 16 ∧
      wmi_swap_bytes d (List.replicate 16 0) = exampleGuid ∧
      d.drop 8 = exampleGuid.drop 8 :=
  ⟨by decide, by decide,
    parse_format_swap_back exampleGuid (List.replicate 16 0) (by decide) (by decide)
      (by decide)⟩

/-- C7. For a 36-character input, `wmi_parse_guid` returns `true` exactly when
the characters at offsets 8, 13, 18 and 23 are `'-'` and each of the other 32
characters is a hex digit. -/
theorem wmi_parse_guid_true_iff (src : List Nat) (hlen : src.length = 36)
    (hb : ∀ c ∈ src, c < 256) :
    (wmi_parse_guid src).isSome = true ↔
      (src.getD 8 0 = dash ∧ src.getD 13 0 = dash ∧ src.getD 18 0 = dash ∧
        src.getD 23 0 = dash) ∧
      ∀ i, i < 36 → i ≠ 8 → i ≠ 13 → i ≠ 18 → i ≠ 23 → isHexDigit (src.getD i 0) := by
  obtain ⟨c0, c1, c2, c3, c4, c5, c6, c7, c8, c9, c10, c11, c12, c13, c14, c15, c16, c17, c18, c19,
      c20, c21, c22, c23, c24, c25, c26, c27, c28, c29, c30, c31, c32, c33, c34, c35, rfl⟩ :=
    block36_cases src hlen
  have b0 : c0 < 256 := hb c0 (by simp)
  have b1 : c1 < 256 := hb c1 (by simp)
  have b2 : c2 < 256 := hb c2 (by simp)
  have b3 : c3 < 256 := hb c3 (by simp)
  have b4 : c4 < 256 := hb c4 (by simp)
  have b5 : c5 < 256 := hb c5 (by simp)
  have b6 : c6 < 256 := hb c6 (by simp)
  have b7 : c7 < 256 := hb c7 (by simp)
  have b9 : c9 < 256 := hb c9 (by simp)
  have b10 : c10 < 256 := hb c10 (by simp)
  have b11 : c11 < 256 := hb c11 (by simp)
  have b12 : c12 < 256 := hb c12 (by simp)
  have b14 : c14 < 256 := hb c14 (by simp)
  have b15 : c15 < 256 := hb c15 (by simp)
  have b16 : c16 < 256 := hb c16 (by simp)
  have b17 : c17 < 256 := hb c17 (by simp)
  have b19 : c19 < 256 := hb c19 (by simp)
  have b20 : c20 < 256 := hb c20 (by simp)
  have b21 : c21 < 256 := hb c21 (by simp)
  have b22 : c22 < 256 := hb c22 (by simp)
  have b24 : c24 < 256 := hb c24 (by simp)
  have b25 : c25 < 256 := hb c25 (by simp)
  have b26 : c26 < 256 := hb c26 (by simp)
  have b27 : c27 < 256 := hb c27 (by simp)
  have b28 : c28 < 256 := hb c28 (by simp)
  have b29 : c29 < 256 := hb c29 (by simp)
  have b30 : c30 < 256 := hb c30 (by simp)
  have b31 : c31 < 256 := hb c31 (by simp)
  have b32 : c32 < 256 := hb c32 (by simp)
  have b33 : c33 < 256 := hb c33 (by simp)
  have b34 : c34 < 256 := hb c34 (by simp)
  have b35 : c35 < 256 := hb c35 (by simp)
  rw [parse_guid_explicit c0 c1 c2 c3 c4 c5 c6 c7 c8 c9 c10 c11 c12 c13 c14 c15 c16 c17 c18 c19 c20
      c21 c22 c23 c24 c25 c26 c27 c28 c29 c30 c31 c32 c33 c34 c35 []
    ⟨b0, b1, b2, b3, b4, b5, b6, b7, b9, b10, b11, b12, b14, b15, b16, b17, b19, b20, b21, b22,
        b24, b25, b26, b27, b28, b29, b30, b31, b32, b33, b34, b35⟩]
  simp only [List.getD_cons_zero, List.getD_cons_succ]
  constructor
  · intro h
    split at h
    · rename_i hc
      obtain ⟨hd, k0, k1, k2, k3, k4, k5, k6, k7, k9, k10, k11, k12, k14, k15, k16, k17, k19, k20,
          k21, k22, k24, k25, k26, k27, k28, k29, k30, k31, k32, k33, k34, k35⟩ := hc
      refine ⟨hd, ?_⟩
      intro i hi n8 n13 n18 n23
      interval_cases i <;>
        first
        | exact absurd rfl n8
        | exact absurd rfl n13
        | exact absurd rfl n18
        | exact absurd rfl n23
        | (simp only [List.getD_cons_zero, List.getD_cons_succ]; assumption)
    · simp at h
  · rintro ⟨hd, hh⟩
    have k0 := hh 0 (by decide) (by decide) (by decide) (by decide) (by decide)
    have k1 := hh 1 (by decide) (by decide) (by decide) (by decide) (by decide)
    have k2 := hh 2 (by decide) (by decide) (by decide) (by decide) (by decide)
    have k3 := hh 3 (by decide) (by decide) (by decide) (by decide) (by decide)
    have k4 := hh 4 (by decide) (by decide) (by decide) (by decide) (by decide)
    have k5 := hh 5 (by decide) (by decide) (by decide) (by decide) (by decide)
    have k6 := hh 6 (by decide) (by decide) (by decide) (by decide) (by decide)
    have k7 := hh 7 (by decide) (by decide) (by decide) (by decide) (by decide)
    have k9 := hh 9 (by decide) (by decide) (by decide) (by decide) (by decide)
    have k10 := hh 10 (by decide) (by decide) (by decide) (by decide) (by decide)
    have k11 := hh 11 (by decide) (by decide) (by decide) (by decide) (by decide)
    have k12 := hh 12 (by decide) (by decide) (by decide) (by decide) (by decide)
    have k14 := hh 14 (by decide) (by decide) (by decide) (by decide) (by decide)
    have k15 := hh 15 (by decide) (by decide) (by decide) (by decide) (by decide)
    have k16 := hh 16 (by decide) (by decide) (by decide) (by decide) (by decide)
    have k17 := hh 17 (by decide) (by decide) (by decide) (by decide) (by decide)
    have k19 := hh 19 (by decide) (by decide) (by decide) (by decide) (by decide)
    have k20 := hh 20 (by decide) (by decide) (by decide) (by decide) (by decide)
    have k21 := hh 21 (by decide) (by decide) (by decide) (by decide) (by decide)
    have k22 := hh 22 (by decide) (by decide) (by decide) (by decide) (by decide)
    have k24 := hh 24 (by decide) (by decide) (by decide) (by decide) (by decide)
    have k25 := hh 25 (by decide) (by decide) (by decide) (by decide) (by decide)
    have k26 := hh 26 (by decide) (by decide) (by decide) (by decide) (by decide)
    have k27 := hh 27 (by decide) (by decide) (by decide) (by decide) (by decide)
    have k28 := hh 28 (by decide) (by decide) (by decide) (by decide) (by decide)
    have k29 := hh 29 (by decide) (by decide) (by decide) (by decide) (by decide)
    have k30 := hh 30 (by decide) (by decide) (by decide) (by decide) (by decide)
    have k31 := hh 31 (by decide) (by decide) (by decide) (by decide) (by decide)
    have k32 := hh 32 (by decide) (by decide) (by decide) (by decide) (by decide)
    have k33 := hh 33 (by decide) (by decide) (by decide) (by decide) (by decide)
    have k34 := hh 34 (by decide) (by decide) (by decide) (by decide) (by decide)
    have k35 := hh 35 (by decide) (by decide) (by decide) (by decide) (by decide)
    simp only [List.getD_cons_zero, List.getD_cons_succ] at k0 k1 k2 k3 k4 k5 k6 k7 k9 k10 k11 k12
    simp only [List.getD_cons_zero, List.getD_cons_succ] at k14 k15 k16 k17 k19 k20 k21 k22 k24
    simp only [List.getD_cons_zero, List.getD_cons_succ] at k25 k26 k27 k28 k29 k30 k31 k32 k33
    simp only [List.getD_cons_zero, List.getD_cons_succ] at k34 k35
    rw [if_pos ⟨hd, k0, k1, k2, k3, k4, k5, k6, k7, k9, k10, k11, k12, k14, k15, k16, k17, k19,
        k20, k21, k22, k24, k25, k26, k27, k28, k29, k30, k31, k32, k33, k34, k35⟩]
    rfl

/-- Witness for C7: the example string of the source is accepted. -/
theorem wmi_parse_guid_true_iff_witness :
    (wmi_parse_guid (lit "fa50ff2b-f2e8-45de-83fa-65417f2f49ba")).isSome = true :=
  (wmi_parse_guid_true_iff (lit "fa50ff2b-f2e8-45de-83fa-65417f2f49ba") (by decide)
    (by decide)).mpr ⟨⟨by decide, by decide, by decide, by decide⟩, by decide⟩


/-! ## Lemmas on the dispatcher -/

theorem mask32_of_lt (n : Nat) (h : n < 2 ^ 32) : OSNumber.mask (n : Int) 32 = n := by
  unfold OSNumber.mask
  simp only [Nat.reducePow] at *
  omega


theorem u32_mod (n : Nat) : unsigned32BitValue (n % 2 ^ 32) = n % 2 ^ 32 := by
  unfold unsigned32BitValue
  exact Nat.mod_mod _ _

theorem message_recognised (H : Headers) (self : IOWMIController) (argument : Nat) :
    message H self H.kIOACPIMessageDeviceNotification argument =
      let raw := argument % 2 ^ 32
      let handled := if raw = 0xD0 then [] else [toInt32 raw]
      let calls : List EvalCall := [(lit "_WED", [.number raw 32])]
      match resolveWED (decide (raw = 0xD0))
          (self.WMIDevice.evaluateObject (lit "_WED") [.number raw 32]).2 with
      | .fault => ⟨handled, calls, .fault⟩
      | .abort ret => ⟨handled, calls, .ret ret⟩
      | .number none => ⟨handled, calls, .ret kIOReturnSuccess⟩
      | .number (some v) =>
        ⟨handled ++ [toInt32 (unsigned32BitValue v)], calls, .ret kIOReturnSuccess⟩ := by
  have hm : OSNumber.mask ((argument % 2 ^ 32 : Nat) : Int) 32 = argument % 2 ^ 32 :=
    mask32_of_lt _ (Nat.mod_lt _ (by norm_num))
  unfold message
  simp only [if_true, hm, u32_mod]
  have e : (208 = argument % 2 ^ 32) = (argument % 2 ^ 32 = 208) := by
    apply propext
    constructor <;> intro h <;> omega
  simp only [e, decide_eq_true_eq]

theorem resolveWED_null (d : Bool) : resolveWED d none = .number none := by
  simp [resolveWED, castOSNumber]

theorem resolveWED_number (d : Bool) (v bits : Nat) :
    resolveWED d (some (.number v bits)) = .number (some v) := by
  simp [resolveWED, castOSNumber]

theorem resolveWED_array_nil (d : Bool) : resolveWED d (some (.array [])) = .fault := by
  simp [resolveWED, castOSNumber, castOSArray]

theorem resolveWED_array_cons (d : Bool) (e : OSObject) (t : List OSObject) :
    resolveWED d (some (.array (e :: t))) =
      match castOSNumber (some e) with
      | none => .abort kIOReturnError
      | some v => .number (some v) := by
  simp [resolveWED, castOSNumber, castOSArray]

theorem resolveWED_data (d : Bool) (bytes : List Nat) :
    resolveWED d (some (.data bytes)) =
      if bytes.length = 0 then .abort kIOReturnError
      else
        match bytes.get? (if d then 4 else 0) with
        | none => .fault
        | some b => .number (some (OSNumber.mask (charValue b) 32)) := by
  simp only [resolveWED, castOSNumber, castOSArray, castOSData, Option.isSome_some,
    Option.isNone_none, and_self, if_true]

theorem resolveWED_string (d : Bool) (s : List Nat) :
    resolveWED d (some (.string s)) = .abort kIOReturnError := by
  simp [resolveWED, castOSNumber, castOSArray, castOSData]

theorem resolveWED_dictionary (d : Bool) (e : List (List Nat × OSObject)) :
    resolveWED d (some (.dictionary e)) = .abort kIOReturnError := by
  simp [resolveWED, castOSNumber, castOSArray, castOSData]

theorem resolveWED_other (d : Bool) : resolveWED d (some .other) = .abort kIOReturnError := by
  simp [resolveWED, castOSNumber, castOSArray, castOSData]

/-! ## The dispatcher: outcomes of a recognised notification -/

/-- C1, as stated, fails on both inputs the spec gives for it.  Raw code `0x05`
with the integer result `0x05`: `handleMessage` is called twice and `message`
returns success.  Raw code `0x07` with an empty buffer: `message` returns
`kIOReturnError` after one call of `handleMessage`.  Neither is "exactly one
code" or "failure with zero codes". -/
theorem message_not_exactly_one_code :
    (message exampleHeaders (controllerOn (deviceReturning none (some (.number 0x05 64))))
      exampleHeaders.kIOACPIMessageDeviceNotification 0x05).handled = [5, 5] ∧
    (message exampleHeaders (controllerOn (deviceReturning none (some (.number 0x05 64))))
      exampleHeaders.kIOACPIMessageDeviceNotification 0x05).ret = .ret kIOReturnSuccess ∧
    (message exampleHeaders (controllerOn (deviceReturning none (some (.data []))))
      exampleHeaders.kIOACPIMessageDeviceNotification 0x07).handled = [7] ∧
    (message exampleHeaders (controllerOn (deviceReturning none (some (.data []))))
      exampleHeaders.kIOACPIMessageDeviceNotification 0x07).ret = .ret kIOReturnError ∧
    ¬ ((message exampleHeaders (controllerOn (deviceReturning none (some (.number 0x05 64))))
          exampleHeaders.kIOACPIMessageDeviceNotification 0x05).handled.length = 1 ∨
       ((message exampleHeaders (controllerOn (deviceReturning none (some (.number 0x05 64))))
          exampleHeaders.kIOACPIMessageDeviceNotification 0x05).ret = .ret kIOReturnError ∧
        (message exampleHeaders (controllerOn (deviceReturning none (some (.number 0x05 64))))
          exampleHeaders.kIOACPIMessageDeviceNotification 0x05).handled.length = 0)) := by
  decide

/-- C1, amended. A recognised notification makes one `_WED` call and ends in
one of two ways.  Success: `handleMessage` got the raw code first, unless that
is the vendor sentinel `0xD0`, and then the resolved code, one code when `_WED`
gave a result and none when it gave `NULL`.  Failure (`kIOReturnError`):
`handleMessage` got the raw code only, unless that is `0xD0`, and no code from
the `_WED` result.  The `_WED` results left aside are an empty array and, for
raw code `0xD0`, a buffer of 1 to 4 bytes. -/
theorem message_recognised_outcomes (H : Headers) (self : IOWMIController) (argument : Nat)
    (harr : (self.WMIDevice.evaluateObject (lit "_WED") [.number (argument % 2 ^ 32) 32]).2 ≠
      some (.array []))
    (hbuf : ∀ bytes,
      (self.WMIDevice.evaluateObject (lit "_WED") [.number (argument % 2 ^ 32) 32]).2 =
        some (.data bytes) →
      argument % 2 ^ 32 = 0xD0 → bytes.length = 0 ∨ 4 < bytes.length) :
    (message H self H.kIOACPIMessageDeviceNotification argument).calls =
      [(lit "_WED", [.number (argument % 2 ^ 32) 32])] ∧
    (((message H self H.kIOACPIMessageDeviceNotification argument).ret = .ret kIOReturnSuccess ∧
      ∃ rest, (message H self H.kIOACPIMessageDeviceNotification argument).handled =
          (if argument % 2 ^ 32 = 0xD0 then [] else [toInt32 (argument % 2 ^ 32)]) ++ rest ∧
        rest.length =
          if (self.WMIDevice.evaluateObject (lit "_WED")
            [.number (argument % 2 ^ 32) 32]).2.isSome then 1 else 0) ∨
     ((message H self H.kIOACPIMessageDeviceNotification argument).ret = .ret kIOReturnError ∧
      (message H self H.kIOACPIMessageDeviceNotification argument).handled =
        if argument % 2 ^ 32 = 0xD0 then [] else [toInt32 (argument % 2 ^ 32)])) := by
  rw [message_recognised]
  dsimp only
  generalize (self.WMIDevice.evaluateObject (lit "_WED") [.number (argument % 2 ^ 32) 32]).2 = wed
    at harr hbuf ⊢
  refine ⟨by split <;> rfl, ?_⟩
  rcases wed with _ | o
  · rw [resolveWED_null]
    exact Or.inl ⟨rfl, [], by simp, rfl⟩
  · cases o with
    | number v b =>
      rw [resolveWED_number]
      exact Or.inl ⟨rfl, _, rfl, rfl⟩
    | string s =>
      rw [resolveWED_string]
      exact Or.inr ⟨rfl, rfl⟩
    | dictionary d =>
      rw [resolveWED_dictionary]
      exact Or.inr ⟨rfl, rfl⟩
    | other =>
      rw [resolveWED_other]
      exact Or.inr ⟨rfl, rfl⟩
    | array elems =>
      cases elems with
      | nil => exact absurd rfl harr
      | cons e t =>
        rw [resolveWED_array_cons]
        cases e with
        | number v b => exact Or.inl ⟨rfl, _, rfl, rfl⟩
        | string s => exact Or.inr ⟨rfl, rfl⟩
        | dictionary d => exact Or.inr ⟨rfl, rfl⟩
        | other => exact Or.inr ⟨rfl, rfl⟩
        | array a => exact Or.inr ⟨rfl, rfl⟩
        | data a => exact Or.inr ⟨rfl, rfl⟩
    | data bytes =>
      rw [resolveWED_data]
      by_cases hlen : bytes.length = 0
      · rw [if_pos hlen]
        exact Or.inr ⟨rfl, rfl⟩
      · rw [if_neg hlen]
        have hidx : (if decide (argument % 2 ^ 32 = 0xD0) = true then 4 else 0) < bytes.length := by
          by_cases hraw : argument % 2 ^ 32 = 0xD0
          · rw [if_pos (decide_eq_true hraw)]
            rcases hbuf bytes rfl hraw with h | h
            · exact absurd h hlen
            · exact h
          · rw [if_neg (fun hc => hraw (of_decide_eq_true hc))]
            exact Nat.pos_of_ne_zero hlen
        rw [List.get?_eq_get hidx]
        exact Or.inl ⟨rfl, _, rfl, rfl⟩

/-- Witness for C1, amended: raw code `0x05` with the integer result `0x05`. -/
theorem message_recognised_outcomes_witness :
    (message exampleHeaders (controllerOn (deviceReturning none (some (.number 0x05 64))))
      exampleHeaders.kIOACPIMessageDeviceNotification 0x05).calls =
      [(lit "_WED", [.number (0x05 % 2 ^ 32) 32])] ∧
    (((message exampleHeaders (controllerOn (deviceReturning none (some (.number 0x05 64))))
        exampleHeaders.kIOACPIMessageDeviceNotification 0x05).ret = .ret kIOReturnSuccess ∧
      ∃ rest, (message exampleHeaders
          (controllerOn (deviceReturning none (some (.number 0x05 64))))
          exampleHeaders.kIOACPIMessageDeviceNotification 0x05).handled =
          (if 0x05 % 2 ^ 32 = 0xD0 then [] else [toInt32 (0x05 % 2 ^ 32)]) ++ rest ∧
        rest.length =
          if ((controllerOn (deviceReturning none (some (.number 0x05
              64)))).WMIDevice.evaluateObject
            (lit "_WED") [.number (0x05 % 2 ^ 32) 32]).2.isSome then 1 else 0) ∨
     ((message exampleHeaders (controllerOn (deviceReturning none (some (.number 0x05 64))))
        exampleHeaders.kIOACPIMessageDeviceNotification 0x05).ret = .ret kIOReturnError ∧
      (message exampleHeaders (controllerOn (deviceReturning none (some (.number 0x05 64))))
        exampleHeaders.kIOACPIMessageDeviceNotification 0x05).handled =
        if 0x05 % 2 ^ 32 = 0xD0 then [] else [toInt32 (0x05 % 2 ^ 32)])) :=
  message_recognised_outcomes exampleHeaders
    (controllerOn (deviceReturning none (some (.number 0x05 64)))) 0x05
    (fun h => by cases h) (fun bytes h => by cases h)


/-! ## Lemmas on the registry -/

theorem getDictLoop_some_ne_none (guid : List Nat) (l : List OSObject) (d : OSDictionary) :
    getDictLoop guid l (some d) ≠ .ret none := by
  induction l generalizing d with
  | nil => simp [getDictLoop]
  | cons e rest ih =>
    rw [getDictLoop]
    split
    · simp
    · split
      · simp
      · split
        · simp
        · exact ih _

theorem getDictLoop_cons_ne_none (guid : List Nat) (e : OSObject) (l : List OSObject)
    (d : Option OSDictionary) : getDictLoop guid (e :: l) d ≠ .ret none := by
  rw [getDictLoop]
  split
  · simp
  · split
    · simp
    · split
      · simp
      · exact getDictLoop_some_ne_none _ _ _

theorem getDictByUUID_none_iff (self : IOWMIController) (guid : List Nat) :
    getDictByUUID self guid = .ret none ↔
      ∀ array, castOSArray (self.properties.getObject (lit "WDG")) = some array → array = [] := by
  unfold getDictByUUID
  cases h : castOSArray (OSDictionary.getObject (lit "WDG") self.properties) with
  | none => simp
  | some array =>
    cases array with
    | nil => simp [getDictLoop]
    | cons e l =>
      simp only [Option.some.injEq, forall_eq', reduceCtorEq, iff_false]
      exact getDictLoop_cons_ne_none _ _ _ _

theorem getObject_setObject_same (key : List Nat) (obj : OSObject) (d : OSDictionary) :
    OSDictionary.getObject key (OSDictionary.setObject key obj d) = some obj := by
  induction d with
  | nil => simp [OSDictionary.setObject, OSDictionary.getObject]
  | cons kv rest ih =>
    obtain ⟨k, v⟩ := kv
    by_cases hk : k = key
    · simp [OSDictionary.setObject, OSDictionary.getObject, hk]
    · simp [OSDictionary.setObject, OSDictionary.getObject, hk, ih]

theorem getObject_setObject_ne (key key2 : List Nat) (obj : OSObject) (d : OSDictionary)
    (hne : key2 ≠ key) :
    OSDictionary.getObject key (OSDictionary.setObject key2 obj d) =
      OSDictionary.getObject key d := by
  induction d with
  | nil => simp [OSDictionary.setObject, OSDictionary.getObject, hne]
  | cons kv rest ih =>
    obtain ⟨k, v⟩ := kv
    by_cases hk : k = key2
    · subst hk
      simp [OSDictionary.setObject, OSDictionary.getObject, hne]
    · by_cases hk2 : k = key
      · subst hk2
        simp [OSDictionary.setObject, OSDictionary.getObject, hk]
      · simp [OSDictionary.setObject, OSDictionary.getObject, hk, hk2, ih]

theorem wdg2reg_array (H : Headers) (self : IOWMIController) (g : guid_block) (st : WdgState) :
    (wmi_wdg2reg H self g st).array = st.array ++ [.dictionary (wdgDict H g)] := by
  unfold wmi_wdg2reg
  split <;> rfl

theorem mask8_of_lt (n : Nat) (h : n < 256) : OSNumber.mask (n : Int) 8 = n := by
  unfold OSNumber.mask
  simp only [Nat.reducePow] at *
  omega

theorem wdgDict_event (H : Headers) (g : guid_block) (he : g.flags &&& H.ACPI_WMI_EVENT ≠ 0) :
    (wdgDict H g).getObject (lit "notify_value") =
        some (.number (OSNumber.mask g.notify_id 8) 8) ∧
    (wdgDict H g).getObject (lit "object_id") = none := by
  have h1 : lit "flags" ≠ lit "notify_value" := by decide
  have h2 : lit "instance_count" ≠ lit "notify_value" := by decide
  have h3 : lit "flags" ≠ lit "object_id" := by decide
  have h4 : lit "instance_count" ≠ lit "object_id" := by decide
  have h5 : lit "notify_value" ≠ lit "object_id" := by decide
  have h6 : lit "UUID" ≠ lit "object_id" := by decide
  unfold wdgDict
  simp only [OSNumber.withNumber, if_pos he]
  constructor
  · rw [getObject_setObject_ne _ _ _ _ h1, getObject_setObject_ne _ _ _ _ h2,
      getObject_setObject_same]
  · rw [getObject_setObject_ne _ _ _ _ h3, getObject_setObject_ne _ _ _ _ h4,
      getObject_setObject_ne _ _ _ _ h5, getObject_setObject_ne _ _ _ _ h6]
    rfl

theorem wdgDict_object (H : Headers) (g : guid_block) (he : g.flags &&& H.ACPI_WMI_EVENT = 0) :
    (wdgDict H g).getObject (lit "object_id") =
        some (.string (cString [g.object_id.getD 0 0 % 256, g.object_id.getD 1 0 % 256, 0])) ∧
    (wdgDict H g).getObject (lit "notify_value") = none := by
  have h1 : lit "flags" ≠ lit "notify_value" := by decide
  have h2 : lit "instance_count" ≠ lit "notify_value" := by decide
  have h3 : lit "flags" ≠ lit "object_id" := by decide
  have h4 : lit "instance_count" ≠ lit "object_id" := by decide
  have h5 : lit "object_id" ≠ lit "notify_value" := by decide
  have h6 : lit "UUID" ≠ lit "notify_value" := by decide
  have hn : ¬ (g.flags &&& H.ACPI_WMI_EVENT ≠ 0) := by simp [he]
  unfold wdgDict
  simp only [OSString.withCString, if_neg hn]
  constructor
  · rw [getObject_setObject_ne _ _ _ _ h3, getObject_setObject_ne _ _ _ _ h4,
      getObject_setObject_same]
    rfl
  · rw [getObject_setObject_ne _ _ _ _ h1, getObject_setObject_ne _ _ _ _ h2,
      getObject_setObject_ne _ _ _ _ h5, getObject_setObject_ne _ _ _ _ h6]
    rfl


theorem cString_two (a b : Nat) : cString [a, b, 0] = cString [a, b] := by
  unfold cString
  simp only [List.takeWhile_cons, List.takeWhile_nil, ne_eq, not_true_eq_false, decide_False,
    Bool.false_eq_true, if_false]

theorem wdgDict_ids (H : Headers) (g : guid_block) (hlen : g.object_id.length = 2)
    (hb : ∀ b ∈ g.object_id, b < 256) :
    (g.flags &&& H.ACPI_WMI_EVENT ≠ 0 →
      (wdgDict H g).getObject (lit "notify_value") = some (.number g.notify_id 8) ∧
      (wdgDict H g).getObject (lit "object_id") = none) ∧
    (g.flags &&& H.ACPI_WMI_EVENT = 0 →
      (wdgDict H g).getObject (lit "object_id") = some (.string (cString g.object_id)) ∧
      (wdgDict H g).getObject (lit "notify_value") = none) := by
  obtain ⟨o0, o1, ho⟩ := List.length_eq_two.mp hlen
  have b0 : o0 < 256 := hb o0 (by simp [ho])
  have b1 : o1 < 256 := hb o1 (by simp [ho])
  constructor
  · intro he
    have h := wdgDict_event H g he
    have hn : g.notify_id = o0 := by simp [guid_block.notify_id, ho]
    rw [hn, mask8_of_lt o0 b0] at h
    rw [hn]
    exact h
  · intro he
    have h := wdgDict_object H g he
    rw [cString_two] at h
    simp only [ho, List.getD_cons_zero, List.getD_cons_succ, Nat.mod_eq_of_lt b0,
      Nat.mod_eq_of_lt b1] at h
    rw [ho]
    exact h


/-! ## The registry: lookup and the accessor on an unresolved GUID -/

/-- C2: on the registry built from the two sample records, a GUID string that
is the UUID of neither entry is looked up.  `getDictByUUID` returns the
dictionary of the last entry, not `NULL`: when no UUID matches, the loop ends
with `dict` still at the last element it examined. -/
theorem getDictByUUID_unknown_returns_last :
    lit "00000000-0000-0000-0000-000000000000" ≠
      cString (wmi_data2Str (guid_block.at exampleBlockA).guid) ∧
    lit "00000000-0000-0000-0000-000000000000" ≠
      cString (wmi_data2Str (guid_block.at exampleBlockB).guid) ∧
    castOSArray (exampleController.properties.getObject (lit "WDG")) =
      some [.dictionary (wdgDict exampleHeaders (guid_block.at exampleBlockA)),
            .dictionary (wdgDict exampleHeaders (guid_block.at exampleBlockB))] ∧
    getDictByUUID exampleController (lit "00000000-0000-0000-0000-000000000000") =
      .ret (some (wdgDict exampleHeaders (guid_block.at exampleBlockB))) ∧
    getDictByUUID exampleController (lit "00000000-0000-0000-0000-000000000000") ≠
      .ret none :=
  ⟨by decide, by decide, rfl, rfl, fun h => by cases h⟩

/-- C3, as stated, fails: on a controller without a registry the GUID does not
resolve, `setDeviceStatus` is entered with `*status = 0` and returns with
`*status` still `0`, not `0xFFFFFFFF`. -/
theorem unresolved_status_not_sentinel :
    getDictByUUID (controllerOn (deviceReturning none none))
        (lit "FA50FF2B-F2E8-45DE-83FA-65417F2F49BA") = .ret none ∧
    ¬ ∃ out, setDeviceStatus (controllerOn (deviceReturning none none))
        (lit "FA50FF2B-F2E8-45DE-83FA-65417F2F49BA") 1 2 0 = .ret out ∧
      out.calls = [] ∧ out.status = 0xFFFFFFFF := by
  refine ⟨rfl, ?_⟩
  rintro ⟨out, h, -, hs⟩
  have e : setDeviceStatus (controllerOn (deviceReturning none none))
      (lit "FA50FF2B-F2E8-45DE-83FA-65417F2F49BA") 1 2 0 = .ret ⟨0, []⟩ := rfl
  rw [e] at h
  cases h
  exact absurd hs (by decide)

/-- C3, amended. `getDictByUUID` returns `NULL` exactly when the `WDG` array is
absent or empty.  When it returns `NULL`, or an entry without an `object_id`
string, `setDeviceStatus` makes no firmware call and leaves `*status` at the
value it had on entry.  When it returns an entry with an `object_id` string,
`setDeviceStatus` makes exactly one firmware call, of the method `WM` followed
by the object id, with the parameters `0x00D`, `methodId` and the eight bytes of
`deviceId` and the entry value of `*status`; `*status` is then the integer the
call stored, or the all-ones sentinel `0xFFFFFFFF` when it stored none. -/
theorem setDeviceStatus_unresolved (self : IOWMIController) (guid : List Nat)
    (methodId deviceId status : Nat) :
    (getDictByUUID self guid = .ret none ↔
      ∀ array, castOSArray (self.properties.getObject (lit "WDG")) = some array → array = []) ∧
    (getDictByUUID self guid = .ret none →
      setDeviceStatus self guid methodId deviceId status = .ret ⟨status, []⟩) ∧
    (∀ dict, getDictByUUID self guid = .ret (some dict) →
      castOSString (dict.getObject (lit "object_id")) = none →
      setDeviceStatus self guid methodId deviceId status = .ret ⟨status, []⟩) ∧
    (∀ dict str, getDictByUUID self guid = .ret (some dict) →
      castOSString (dict.getObject (lit "object_id")) = some str →
      ∃ out, setDeviceStatus self guid methodId deviceId status = .ret out ∧
        out.calls = [(snprintf 5 (lit "WM" ++ str),
          [OSNumber.withNumber 0x00D 32, OSNumber.withNumber methodId 32,
            .data (le32 deviceId ++ le32 status)])] ∧
        (∀ v, (self.WMIDevice.evaluateInteger (snprintf 5 (lit "WM" ++ str))
            [OSNumber.withNumber 0x00D 32, OSNumber.withNumber methodId 32,
              .data (le32 deviceId ++ le32 status)]).2 = some v →
          out.status = v % 2 ^ 32) ∧
        ((self.WMIDevice.evaluateInteger (snprintf 5 (lit "WM" ++ str))
            [OSNumber.withNumber 0x00D 32, OSNumber.withNumber methodId 32,
              .data (le32 deviceId ++ le32 status)]).2 = none →
          out.status = 0xFFFFFFFF)) := by
  refine ⟨getDictByUUID_none_iff self guid, ?_, ?_, ?_⟩
  · intro h
    unfold setDeviceStatus
    rw [h]
  · intro dict h hs
    unfold setDeviceStatus
    rw [h]
    dsimp only
    rw [hs]
  · intro dict str h hs
    unfold setDeviceStatus
    rw [h]
    dsimp only
    rw [hs]
    refine ⟨_, rfl, rfl, ?_, ?_⟩
    · intro v hv
      dsimp only
      rw [hv]
      rfl
    · intro hv
      dsimp only
      rw [hv]
      rfl

/-- Witness for C3, amended: on a controller without a registry the call with
`*status = 0` returns with `*status = 0` and no firmware call; on the sample
registry the GUID of record B resolves to `object_id = "AB"`, the method `WMAB`
is evaluated and stores nothing, and `*status` is `0xFFFFFFFF`. -/
theorem setDeviceStatus_unresolved_witness :
    getDictByUUID (controllerOn (deviceReturning none none))
        (lit "FA50FF2B-F2E8-45DE-83FA-65417F2F49BA") = .ret none ∧
    setDeviceStatus (controllerOn (deviceReturning none none))
        (lit "FA50FF2B-F2E8-45DE-83FA-65417F2F49BA") 1 2 0 = .ret ⟨0, []⟩ ∧
    setDeviceStatus exampleController (lit "04030201-0605-0807-090A-0B0C0D0E0F10") 1 2 0 =
      .ret ⟨0xFFFFFFFF, [(lit "WMAB",
        [.number 0x00D 32, .number 1 32, .data [2, 0, 0, 0, 0, 0, 0, 0]])]⟩ :=
  ⟨rfl, (setDeviceStatus_unresolved (controllerOn (deviceReturning none none))
    (lit "FA50FF2B-F2E8-45DE-83FA-65417F2F49BA") 1 2 0).2.1 rfl, rfl⟩

/-! ## The descriptor table and the registry built from it -/

theorem cString_eq_self_iff (l : List Nat) : cString l = l ↔ ∀ c ∈ l, c ≠ 0 := by
  unfold cString
  rw [List.takeWhile_eq_self_iff]
  constructor
  · intro h c hc
    simpa using h c hc
  · intro h c hc
    simpa using h c hc

/-- C9, as stated, fails on a record with flags `0` and the object-id bytes
`00 'B'`: the entry gets the key `object_id`, but the string stored is empty,
not the record's two object-id characters.  `snprintf` and
`OSString::withCString` make a C string of them, which ends at the first NUL. -/
theorem wdgDict_object_id_cut_at_nul :
    (guid_block.at exampleBlockNul).object_id = [0x00, 0x42] ∧
    (guid_block.at exampleBlockNul).flags &&& exampleHeaders.ACPI_WMI_EVENT = 0 ∧
    castOSString ((wdgDict exampleHeaders (guid_block.at exampleBlockNul)).getObject
      (lit "object_id")) = some [] ∧
    castOSString ((wdgDict exampleHeaders (guid_block.at exampleBlockNul)).getObject
      (lit "object_id")) ≠ some (guid_block.at exampleBlockNul).object_id := by
  decide

/-- C9, amended. For a descriptor record (two object-id bytes), the dictionary
that `wmi_wdg2reg` appends to the array has exactly one of the keys
`notify_value` and `object_id`.  `notify_value` is present exactly when the
EVENT bit is set in the flags; it then holds the record's `notify_id` byte, and
`object_id` is absent.  Otherwise `object_id` holds the C string made of the
record's two object-id characters, that is the characters before the first
NUL, and `notify_value` is absent; this string is the two characters themselves
exactly when neither of them is NUL. -/
theorem wmi_wdg2reg_one_id (H : Headers) (self : IOWMIController) (g : guid_block)
    (st : WdgState) (hlen : g.object_id.length = 2) (hb : ∀ b ∈ g.object_id, b < 256) :
    (wmi_wdg2reg H self g st).array = st.array ++ [.dictionary (wdgDict H g)] ∧
    (((wdgDict H g).getObject (lit "notify_value")).isSome = true ↔
      g.flags &&& H.ACPI_WMI_EVENT ≠ 0) ∧
    (((wdgDict H g).getObject (lit "object_id")).isSome = true ↔
      ¬ g.flags &&& H.ACPI_WMI_EVENT ≠ 0) ∧
    (g.flags &&& H.ACPI_WMI_EVENT ≠ 0 →
      (wdgDict H g).getObject (lit "notify_value") = some (.number g.notify_id 8) ∧
      (wdgDict H g).getObject (lit "object_id") = none) ∧
    (¬ g.flags &&& H.ACPI_WMI_EVENT ≠ 0 →
      (wdgDict H g).getObject (lit "object_id") = some (.string (cString g.object_id)) ∧
      (wdgDict H g).getObject (lit "notify_value") = none) ∧
    cString g.object_id = g.object_id.takeWhile (fun c => c ≠ 0) ∧
    (cString g.object_id = g.object_id ↔ ∀ c ∈ g.object_id, c ≠ 0) := by
  have h := wdgDict_ids H g hlen hb
  refine ⟨wdg2reg_array H self g st, ?_, ?_, h.1, ?_, rfl, cString_eq_self_iff g.object_id⟩
  · by_cases he : g.flags &&& H.ACPI_WMI_EVENT ≠ 0
    · simp [(h.1 he).1, he]
    · simp [(h.2 (not_not.mp he)).2, he]
  · by_cases he : g.flags &&& H.ACPI_WMI_EVENT ≠ 0
    · simp [(h.1 he).2, he]
    · simp [(h.2 (not_not.mp he)).1, he]
  · intro he
    exact h.2 (not_not.mp he)

/-- Witness for C9, amended: the sample record B, flags `0` and object id `"AB"`. -/
theorem wmi_wdg2reg_one_id_witness :
    (guid_block.at exampleBlockB).object_id.length = 2 ∧
    (wdgDict exampleHeaders (guid_block.at exampleBlockB)).getObject (lit "object_id") =
      some (.string (lit "AB")) ∧
    (wdgDict exampleHeaders (guid_block.at exampleBlockB)).getObject (lit "notify_value") =
      none :=
  ⟨by decide,
    (wmi_wdg2reg_one_id exampleHeaders (controllerOn (deviceReturning none none))
      (guid_block.at exampleBlockB) ⟨[], [], []⟩ (by decide) (by decide)).2.2.2.2.1
      (by decide)⟩


theorem toInt32_mod (n : Nat) : toInt32 (unsigned32BitValue n) = toInt32 (n % 2 ^ 32) := rfl

theorem widen_charValue (b : Nat) :
    toInt32 (unsigned32BitValue (OSNumber.mask (charValue b) 32)) = charValue b := by
  unfold toInt32 unsigned32BitValue OSNumber.mask charValue
  simp only [Nat.reducePow]
  split_ifs <;> omega

/-- The code a buffer gives when the byte read lies inside it: `message` returns
success and the resolved code is the byte at offset 4 (raw code `0xD0`) or at
offset 0 (any other raw code), with the value it has as a `char`. -/
theorem message_buffer_code (H : Headers) (self : IOWMIController) (argument : Nat)
    (bytes : List Nat)
    (hwed : (self.WMIDevice.evaluateObject (lit "_WED") [.number (argument % 2 ^ 32) 32]).2 =
      some (.data bytes))
    (hidx : (if argument % 2 ^ 32 = 0xD0 then 4 else 0) < bytes.length) :
    (message H self H.kIOACPIMessageDeviceNotification argument).ret = .ret kIOReturnSuccess ∧
    (message H self H.kIOACPIMessageDeviceNotification argument).handled =
      (if argument % 2 ^ 32 = 0xD0 then [] else [toInt32 (argument % 2 ^ 32)]) ++
        [charValue (bytes.getD (if argument % 2 ^ 32 = 0xD0 then 4 else 0) 0)] := by
  have hlen : bytes.length ≠ 0 := by omega
  have hidx2 : (if decide (argument % 2 ^ 32 = 0xD0) = true then 4 else 0) < bytes.length := by
    by_cases hraw : argument % 2 ^ 32 = 0xD0
    · rw [if_pos (decide_eq_true hraw)]
      rw [if_pos hraw] at hidx
      exact hidx
    · rw [if_neg (fun hc => hraw (of_decide_eq_true hc))]
      rw [if_neg hraw] at hidx
      exact hidx
  have hsame : (if decide (argument % 2 ^ 32 = 0xD0) = true then 4 else 0) =
      (if argument % 2 ^ 32 = 0xD0 then 4 else 0) := by
    by_cases hraw : argument % 2 ^ 32 = 0xD0
    · rw [if_pos (decide_eq_true hraw), if_pos hraw]
    · rw [if_neg (fun hc => hraw (of_decide_eq_true hc)), if_neg hraw]
  rw [message_recognised]
  dsimp only
  rw [hwed, resolveWED_data, if_neg hlen, List.get?_eq_get hidx2]
  dsimp only
  rw [widen_charValue]
  refine ⟨rfl, ?_⟩
  congr 2
  rw [List.getD_eq_getElem _ _ hidx]
  simp only [List.get_eq_getElem, hsame]

/-- C11: the offsets are as claimed, the value is not.  Raw code `0xD0` with the
buffer `00 00 00 00 2A` gives `handleMessage(0x2A)` and nothing else.  With the
buffer `00 00 00 00 AA` the code delivered is `-86` (`0xFFFFFFAA`), not the byte
`0xAA`: `bytes[4]` is read through `const char *` and sign-extended. -/
theorem message_buffer_offset_sign_extended :
    (message exampleHeaders
      (controllerOn (deviceReturning none (some (.data [0x00, 0x00, 0x00, 0x00, 0x2A]))))
      exampleHeaders.kIOACPIMessageDeviceNotification 0xD0).handled = [0x2A] ∧
    (message exampleHeaders
      (controllerOn (deviceReturning none (some (.data [0x00, 0x00, 0x00, 0x00, 0xAA]))))
      exampleHeaders.kIOACPIMessageDeviceNotification 0xD0).handled = [-86] ∧
    (message exampleHeaders
      (controllerOn (deviceReturning none (some (.data [0x00, 0x00, 0x00, 0x00, 0xAA]))))
      exampleHeaders.kIOACPIMessageDeviceNotification 0xD0).handled ≠ [0xAA] := by
  decide

/-- C12. When `_WED` gives an integer `n`, or an array whose element 0 is an
integer `n`, a recognised notification returns success and the last code
passed to `handleMessage` is the low 32 bits of `n` (as the `int` holding that
bit pattern, which is the number itself below `2 ^ 31`); before it comes the raw
code, unless that is `0xD0`. -/
theorem message_integer_payload (H : Headers) (self : IOWMIController) (argument n bits : Nat)
    (t : List OSObject)
    (hwed :
      (self.WMIDevice.evaluateObject (lit "_WED") [.number (argument % 2 ^ 32) 32]).2 =
          some (.number n bits) ∨
      (self.WMIDevice.evaluateObject (lit "_WED") [.number (argument % 2 ^ 32) 32]).2 =
          some (.array (.number n bits :: t))) :
    (message H self H.kIOACPIMessageDeviceNotification argument).ret = .ret kIOReturnSuccess ∧
    (message H self H.kIOACPIMessageDeviceNotification argument).handled =
      (if argument % 2 ^ 32 = 0xD0 then [] else [toInt32 (argument % 2 ^ 32)]) ++
        [toInt32 (n % 2 ^ 32)] ∧
    (n % 2 ^ 32 < 2 ^ 31 → toInt32 (n % 2 ^ 32) = ((n % 2 ^ 32 : Nat) : Int)) := by
  rw [message_recognised]
  dsimp only
  refine ⟨?_, ?_, fun h => toInt32_small _ h⟩
  · rcases hwed with h | h
    · rw [h, resolveWED_number]
    · rw [h, resolveWED_array_cons]
      rfl
  · rcases hwed with h | h
    · rw [h, resolveWED_number]
      rfl
    · rw [h, resolveWED_array_cons]
      rfl

/-- Witness for C12: raw code `0x07` with the array `[17]` delivers `7, 17`; raw
code `0x05` with the integer `0x05` delivers `5, 5`. -/
theorem message_integer_payload_witness :
    (message exampleHeaders (controllerOn (deviceReturning none (some (.array [.number 17 64]))))
      exampleHeaders.kIOACPIMessageDeviceNotification 0x07).ret = .ret kIOReturnSuccess ∧
    (message exampleHeaders (controllerOn (deviceReturning none (some (.array [.number 17 64]))))
      exampleHeaders.kIOACPIMessageDeviceNotification 0x07).handled = [7, 17] ∧
    (message exampleHeaders (controllerOn (deviceReturning none (some (.number 0x05 64))))
      exampleHeaders.kIOACPIMessageDeviceNotification 0x05).handled = [5, 5] :=
  ⟨(message_integer_payload exampleHeaders
      (controllerOn (deviceReturning none (some (.array [.number 17 64])))) 0x07 17 64 []
      (Or.inr rfl)).1,
    (message_integer_payload exampleHeaders
      (controllerOn (deviceReturning none (some (.array [.number 17 64])))) 0x07 17 64 []
      (Or.inr rfl)).2.1,
    (message_integer_payload exampleHeaders
      (controllerOn (deviceReturning none (some (.number 0x05 64)))) 0x05 0x05 64 []
      (Or.inl rfl)).2.1⟩

/-- The payloads `message` rejects as the code means to: when `_WED` gives an
empty buffer, an array whose element 0 is there and is not an integer, or an
object that is neither number, array nor buffer, a recognised notification
returns `kIOReturnError` and `handleMessage` gets no code from the payload, only
the raw code, unless that is `0xD0`. -/
theorem message_payload_rejected (H : Headers) (self : IOWMIController) (argument : Nat)
    (hwed :
      (self.WMIDevice.evaluateObject (lit "_WED") [.number (argument % 2 ^ 32) 32]).2 =
          some (.data []) ∨
      (∃ e t,
        (self.WMIDevice.evaluateObject (lit "_WED") [.number (argument % 2 ^ 32) 32]).2 =
            some (.array (e :: t)) ∧
          castOSNumber (some e) = none) ∨
      ((self.WMIDevice.evaluateObject (lit "_WED")
            [.number (argument % 2 ^ 32) 32]).2.isSome = true ∧
        castOSNumber (self.WMIDevice.evaluateObject (lit "_WED")
            [.number (argument % 2 ^ 32) 32]).2 = none ∧
        castOSArray (self.WMIDevice.evaluateObject (lit "_WED")
            [.number (argument % 2 ^ 32) 32]).2 = none ∧
        castOSData (self.WMIDevice.evaluateObject (lit "_WED")
            [.number (argument % 2 ^ 32) 32]).2 = none)) :
    (message H self H.kIOACPIMessageDeviceNotification argument).ret = .ret kIOReturnError ∧
    (message H self H.kIOACPIMessageDeviceNotification argument).handled =
      (if argument % 2 ^ 32 = 0xD0 then [] else [toInt32 (argument % 2 ^ 32)]) := by
  rw [message_recognised]
  dsimp only
  generalize (self.WMIDevice.evaluateObject (lit "_WED") [.number (argument % 2 ^ 32) 32]).2 = wed
    at hwed ⊢
  have key : resolveWED (decide (argument % 2 ^ 32 = 0xD0)) wed = .abort kIOReturnError := by
    rcases hwed with h | ⟨e, t, h, he⟩ | ⟨h1, h2, h3, h4⟩
    · rw [h, resolveWED_data]
      rfl
    · rw [h, resolveWED_array_cons, he]
    · rcases wed with _ | o
      · simp at h1
      · cases o with
        | number v b => simp [castOSNumber] at h2
        | array a => simp [castOSArray] at h3
        | data d => simp [castOSData] at h4
        | string s => exact resolveWED_string _ _
        | dictionary d => exact resolveWED_dictionary _ _
        | other => exact resolveWED_other _
  rw [key]
  exact ⟨rfl, rfl⟩

/-- C13: raw code `0x07` with an empty array.  Element 0 is not an integer,
there is none, so `message` enters the branch that is to return
`kIOReturnError`; but the log call of that branch dereferences
`array->getObject(0)`, which is `NULL`, and `message` faults after the raw code
has been handled instead of returning the failure status. -/
theorem message_empty_array_null_deref :
    (message exampleHeaders (controllerOn (deviceReturning none (some (.array []))))
      exampleHeaders.kIOACPIMessageDeviceNotification 0x07).handled = [7] ∧
    (message exampleHeaders (controllerOn (deviceReturning none (some (.array []))))
      exampleHeaders.kIOACPIMessageDeviceNotification 0x07).ret = .fault ∧
    (message exampleHeaders (controllerOn (deviceReturning none (some (.array []))))
      exampleHeaders.kIOACPIMessageDeviceNotification 0x07).ret ≠ .ret kIOReturnError := by
  decide

/-- C14. A message of any other type than the device notification makes no call
of `handleMessage` and no firmware call, and returns success, whatever the
argument. -/
theorem message_unrecognised_type (H : Headers) (self : IOWMIController) (type argument : Nat)
    (htype : type ≠ H.kIOACPIMessageDeviceNotification) :
    (message H self type argument).handled = [] ∧
    (message H self type argument).calls = [] ∧
    (message H self type argument).ret = .ret kIOReturnSuccess := by
  unfold message
  rw [if_neg htype]
  exact ⟨rfl, rfl, rfl⟩

/-- Witness for C14: message type `0x11`. -/
theorem message_unrecognised_type_witness :
    (0x11 : Nat) ≠ exampleHeaders.kIOACPIMessageDeviceNotification ∧
    (message exampleHeaders (controllerOn (deviceReturning none (some (.number 0x05 64))))
      0x11 0x05).handled = [] ∧
    (message exampleHeaders (controllerOn (deviceReturning none (some (.number 0x05 64))))
      0x11 0x05).calls = [] ∧
    (message exampleHeaders (controllerOn (deviceReturning none (some (.number 0x05 64))))
      0x11 0x05).ret = .ret kIOReturnSuccess :=
  ⟨by decide,
    message_unrecognised_type exampleHeaders
      (controllerOn (deviceReturning none (some (.number 0x05 64)))) 0x11 0x05 (by decide)⟩

/-- C18: raw code `0xD0` with a buffer of one byte, or of four.  The buffer is
not empty, so `message` goes on to read `bytes[4]`, which lies past the end of
the buffer: the index 4 is not below the length. -/
theorem message_short_buffer_read_past_end :
    ¬ (4 < [0x2A].length) ∧
    (message exampleHeaders (controllerOn (deviceReturning none (some (.data [0x2A]))))
      exampleHeaders.kIOACPIMessageDeviceNotification 0xD0).ret = .fault ∧
    (message exampleHeaders (controllerOn (deviceReturning none (some (.data [1, 2, 3, 4]))))
      exampleHeaders.kIOACPIMessageDeviceNotification 0xD0).ret = .fault := by
  decide

/-- C19: raw code `0x07` with the buffer `80` passes `-128` to `handleMessage`
after the raw code, and raw code `0xD0` with the buffer `00 00 00 00 FF` passes
`-1`: the byte is read as a signed `char` and sign-extended, so the code is not
in `0 .. 255`. -/
theorem message_high_byte_negative :
    (message exampleHeaders (controllerOn (deviceReturning none (some (.data [0x80]))))
      exampleHeaders.kIOACPIMessageDeviceNotification 0x07).handled = [7, -128] ∧
    (message exampleHeaders
      (controllerOn (deviceReturning none (some (.data [0x00, 0x00, 0x00, 0x00, 0xFF]))))
      exampleHeaders.kIOACPIMessageDeviceNotification 0xD0).handled = [-1] ∧
    ¬ ((0 : Int) ≤ -128 ∧ (-128 : Int) ≤ 255) := by
  decide

/-! ## The accessors and the sink -/

/-- C15: the registry holds the sample records B and A, in this order, and the
GUID looked up is the UUID of neither.  `getDictByUUID` hands back the last
entry, the event entry A, and `setEvent` evaluates its method `WE0D` and
returns the status of that evaluation. -/
theorem setEvent_unknown_guid_calls_firmware :
    lit "00000000-0000-0000-0000-000000000000" ≠
      cString (wmi_data2Str (guid_block.at exampleBlockA).guid) ∧
    lit "00000000-0000-0000-0000-000000000000" ≠
      cString (wmi_data2Str (guid_block.at exampleBlockB).guid) ∧
    castOSArray (exampleControllerBA.properties.getObject (lit "WDG")) =
      some [.dictionary (wdgDict exampleHeaders (guid_block.at exampleBlockB)),
            .dictionary (wdgDict exampleHeaders (guid_block.at exampleBlockA))] ∧
    setEvent exampleControllerBA (lit "00000000-0000-0000-0000-000000000000") true =
      .ret (kIOReturnSuccess, [(lit "WE0D", [.number 1 32])]) :=
  ⟨by decide, by decide, rfl, rfl⟩

/-- C16. Whatever the state, a second `disableEvent` changes nothing and
releases nothing: after the first call no sink is attached, and over the two
calls at most one sink is released. -/
theorem disableEvent_idempotent (self : IOWMIController) :
    (disableEvent (disableEvent self).1).1 = (disableEvent self).1 ∧
    (disableEvent self).1._keyboardDevice = none ∧
    (disableEvent (disableEvent self).1).2 = [] ∧
    ((disableEvent self).2 ++ (disableEvent (disableEvent self).1).2).length ≤ 1 := by
  obtain ⟨props, dev, kbd⟩ := self
  cases kbd with
  | none => exact ⟨rfl, rfl, rfl, Nat.zero_le 1⟩
  | some k => exact ⟨rfl, rfl, rfl, Nat.le_refl 1⟩

/-! ## The GUID codec: parse after format, and the hex byte -/

/-- C17. For every 16-byte GUID, parsing the formatted string succeeds and
gives the byte-swapped GUID, and `wmi_swap_bytes` applied to the parsed bytes
gives the GUID back. -/
theorem parse_format_is_swap (g dest : List Nat) (hg : g.length = 16) (hd : dest.length = 16)
    (hb : ∀ b ∈ g, b < 256) :
    wmi_parse_guid (wmi_data2Str g) = some (wmi_swap_bytes g dest) ∧
    ∀ d, wmi_parse_guid (wmi_data2Str g) = some d → wmi_swap_bytes d dest = g := by
  obtain ⟨a0, a1, a2, a3, a4, a5, a6, a7, a8, a9, a10, a11, a12, a13, a14, a15, rfl⟩ :=
    block16_cases g hg
  obtain ⟨b0, b1, b2, b3, b4, b5, b6, b7, b8, b9, b10, b11, b12, b13, b14, b15, rfl⟩ :=
    block16_cases dest hd
  have h := parse_format_explicit _ _ _ _ _ _ _ _ _ _ _ _ _ _ _ _ hb
  refine ⟨h, ?_⟩
  intro d hd2
  rw [h] at hd2
  cases hd2
  rfl

/-- Witness for C17: the GUID of the example in the source parses to the bytes
in the order of its string, `fa 50 ff 2b f2 e8 ..`. -/
theorem parse_format_is_swap_witness :
    wmi_parse_guid (wmi_data2Str exampleGuid) =
      some (wmi_swap_bytes exampleGuid (List.replicate 16 0)) ∧
    wmi_parse_guid (wmi_data2Str exampleGuid) =
      some [0xfa, 0x50, 0xff, 0x2b, 0xf2, 0xe8, 0x45, 0xde, 0x83, 0xfa, 0x65, 0x41, 0x7f, 0x2f,
        0x49, 0xba] :=
  ⟨(parse_format_is_swap exampleGuid (List.replicate 16 0) (by decide) (by decide)
      (by decide)).1, by decide⟩

/-- C20. For two bytes, `wmi_parse_hexbyte` returns `-1` exactly when one of
them is not a hex digit; for two hex digits it returns sixteen times the value
of the first plus the value of the second, at most 255; and an upper-case
letter gives the same result as its lower-case form, in either position. -/
theorem wmi_parse_hexbyte_spec (c0 c1 : Nat) (h0 : c0 < 256) (h1 : c1 < 256) :
    (wmi_parse_hexbyte [c0, c1] = -1 ↔ ¬ isHexDigit c0 ∨ ¬ isHexDigit c1) ∧
    (isHexDigit c0 → isHexDigit c1 →
      wmi_parse_hexbyte [c0, c1] = ((16 * hexValue c0 + hexValue c1 : Nat) : Int) ∧
      16 * hexValue c0 + hexValue c1 ≤ 255) ∧
    (65 ≤ c0 → c0 ≤ 70 → wmi_parse_hexbyte [c0 + 32, c1] = wmi_parse_hexbyte [c0, c1]) ∧
    (65 ≤ c1 → c1 ≤ 70 → wmi_parse_hexbyte [c0, c1 + 32] = wmi_parse_hexbyte [c0, c1]) := by
  have hv0 := hexValue_lt c0
  have hv1 := hexValue_lt c1
  refine ⟨?_, ?_, ?_, ?_⟩
  · rw [hexbyte_eq c0 c1 [] h0 h1]
    by_cases h : isHexDigit c0 ∧ isHexDigit c1
    · rw [if_pos h]
      constructor
      · intro he
        omega
      · rintro (hn | hn)
        · exact absurd h.1 hn
        · exact absurd h.2 hn
    · rw [if_neg h]
      constructor
      · intro _
        by_cases h0' : isHexDigit c0
        · exact Or.inr (fun h1' => h ⟨h0', h1'⟩)
        · exact Or.inl h0'
      · intro _
        rfl
  · intro hd0 hd1
    rw [hexbyte_eq c0 c1 [] h0 h1, if_pos ⟨hd0, hd1⟩]
    exact ⟨rfl, by omega⟩
  · intro ha hb
    have hup : isHexDigit c0 := Or.inr (Or.inr ⟨ha, hb⟩)
    have hlo : isHexDigit (c0 + 32) := Or.inr (Or.inl ⟨by omega, by omega⟩)
    have hval : hexValue (c0 + 32) = hexValue c0 := by
      unfold hexValue
      split_ifs <;> omega
    rw [hexbyte_eq (c0 + 32) c1 [] (by omega) h1, hexbyte_eq c0 c1 [] h0 h1, hval]
    simp only [hup, hlo, true_and]
  · intro ha hb
    have hup : isHexDigit c1 := Or.inr (Or.inr ⟨ha, hb⟩)
    have hlo : isHexDigit (c1 + 32) := Or.inr (Or.inl ⟨by omega, by omega⟩)
    have hval : hexValue (c1 + 32) = hexValue c1 := by
      unfold hexValue
      split_ifs <;> omega
    rw [hexbyte_eq c0 (c1 + 32) [] h0 (by omega), hexbyte_eq c0 c1 [] h0 h1, hval]
    simp only [hup, hlo, and_true]

/-- Witness for C20: `"fA"` and `"Fa"` give `0xFA`, `"gA"` gives `-1`. -/
theorem wmi_parse_hexbyte_spec_witness :
    wmi_parse_hexbyte [102, 65] = 250 ∧ wmi_parse_hexbyte [70, 97] = 250 ∧
    wmi_parse_hexbyte [103, 65] = -1 :=
  ⟨((wmi_parse_hexbyte_spec 102 65 (by decide) (by decide)).2.1 (by decide) (by decide)).1,
    by decide, by decide⟩

end IOWMI
